import Mathlib

/-!
# myopsida: dynamic-DNS updater (`main.go`)

Shallow embedding of `getIP`, `UpdateCloudflareDNSRecord` and `main`; `main` is embedded in
two parts, the run after `flag.Parse()` has returned (`main`) and the run from the command
line with the flag parsing of the standard library (`mainFromArgs`).

The outside world is made explicit:

* every call of `http.Get` or `client.Do` appends one event to a trace and its
  result is read from a stream of results indexed by the attempt number;
* `time.Sleep`, `fmt.Printf`/`fmt.Println` and `fmt.Fprintf(os.Stderr, ..)` append events;
* `json.Marshal`, `http.NewRequest` and `fmt.Sprintf("%v", ..)` are library functions of their
  arguments and are parameters of the model (`Lib`);
* Go errors are values with a message and, for `%w`, the wrapped error.

The `for` loops are embedded with a fuel argument; the loop condition and the
`attempt < maxRetries` test are kept as written in the source.
-/

namespace Myopsida

/-! ## Go errors -/

/-- Go `error` value: `errorString` is an error without a wrapped error (`errors.New`,
`fmt.Errorf` without `%w`, transport errors); `wrapError` is what `fmt.Errorf` builds for
a `%w` verb. -/
inductive GoError where
  | errorString (msg : String)
  | wrapError (msg : String) (err : GoError)
deriving DecidableEq, Repr

/-- Method `Error()`. -/
def GoError.Error : GoError → String
  | .errorString msg => msg
  | .wrapError msg _ => msg

/-- Method `Unwrap()` (`nil` for an error that wraps nothing). -/
def GoError.Unwrap : GoError → Option GoError
  | .errorString _ => none
  | .wrapError _ err => some err

/-- Call `fmt.Errorf(text + "%w", err)` where `text` is the already formatted text in front
of the final `%w` verb. For a nil operand `fmt` prints `%!w(<nil>)` and wraps nothing. -/
def Errorf_w (text : String) : Option GoError → GoError
  | some err => .wrapError (text ++ err.Error) err
  | none => .errorString (text ++ "%!w(<nil>)")

/-! ## Data model (`main.go` lines 15-35) -/

/-- IPResponse represents the response from ipify API. -/
structure IPResponse where
  IP : String
deriving DecidableEq, Repr

/-- CloudflareDNSRecord represents a Cloudflare DNS record. -/
structure CloudflareDNSRecord where
  Type_ : String
  Name : String
  Content : String
  TTL : Int
  Proxied : Bool
  Comment : String
deriving DecidableEq, Repr

/-- CloudflareResponse represents the response from Cloudflare API; `V` is the type of the
decoded `interface{}` values. -/
structure CloudflareResponse (V : Type) where
  Success : Bool
  Errors : List V
  Result : Option V
deriving DecidableEq, Repr

/-! ## The world -/

/-- Value `*http.Request` as far as this program touches it. -/
structure Request where
  Method : String
  URL : String
  Body : String
  Header : List (String × String)
deriving DecidableEq, Repr

/-- Method `req.Header.Set(key, value)`: replaces the values of `key`. -/
def Request.HeaderSet (req : Request) (key value : String) : Request :=
  { req with Header := (req.Header.filter fun kv => kv.1 != key) ++ [(key, value)] }

/-- What the program does to the outside world, in order. Durations are nanoseconds. -/
inductive Event where
  | httpGet (url : String)
  | clientDo (req : Request)
  | sleep (d : Nat)
  | stdout (text : String)
  | stderr (text : String)
  | printDefaults
deriving DecidableEq, Repr

/-- Result of `http.Get(url)`: a transport error, or a response with its status code and
what `json.NewDecoder(resp.Body).Decode(&ipResp)` yields on its body. -/
inductive GetResult where
  | err (e : GoError)
  | resp (StatusCode : Int) (decode : Except GoError IPResponse)

/-- Result of `client.Do(req)`: a transport error, or a response with its status code, with
`body` what `io.ReadAll(resp.Body)` yields, and on a body that was read, what
`json.Unmarshal(body, &cfResp)` yields. -/
inductive DoResult (V : Type) where
  | err (e : GoError)
  | resp (StatusCode : Int) (body : Except GoError (Except GoError (CloudflareResponse V)))

/-- Library functions used by `UpdateCloudflareDNSRecord`. -/
structure Lib (V : Type) where
  /-- Function `json.Marshal(record)`. -/
  Marshal : CloudflareDNSRecord → Except GoError String
  /-- Function `http.NewRequest(method, url, bytes.NewBuffer(payload))`. -/
  NewRequest : String → String → String → Except GoError Request
  /-- Function `fmt.Sprintf("%v", errors)` on a slice of decoded values. -/
  SprintV : List V → String

/-! ## Constants of the retry loops -/

/-- Constant `time.Second` in nanoseconds. -/
def Second : Nat := 1000000000

/-- Local `maxRetries := 5` of both loops. -/
def maxRetries : Nat := 5

/-- Local `minWaitTime := 5 * time.Second` of both loops. -/
def minWaitTime : Nat := 5 * Second

/-- Line 73 and 131: `minWaitTime * time.Duration(math.Pow(2, float64(attempt)))`.
For `attempt < maxRetries` the power is an exact float and the product is below `2^63`. -/
def waitTime (attempt : Nat) : Nat := minWaitTime * 2 ^ attempt

/-- Lines 74-75 and 132-133: the progress line and the sleep. `waitTime.Seconds()` is a whole
number of seconds here, which `%v` prints without a fraction. -/
def backoff (attempt : Nat) : List Event :=
  [.stdout ("Retry attempt " ++ toString (attempt + 1) ++ "/" ++ toString maxRetries ++ " in "
      ++ toString (waitTime attempt / Second) ++ " seconds...\n"),
   .sleep (waitTime attempt)]

/-- Outcome of the body of one loop iteration: `retry lastErr` falls through to the
backoff with `lastErr` assigned, `done v` is a `return` from inside the loop. -/
inductive Attempt (α : Type) where
  | retry (lastErr : GoError)
  | done (v : α)
deriving DecidableEq, Repr

/-! ## getIP (lines 47-80) -/

/-- Constant `http.StatusOK`. -/
def StatusOK : Int := 200

/-- Lines 54-69 of `getIP`: the treatment of the result of `http.Get(url)`. -/
def getIPAttempt (url : String) : GetResult → Attempt (String × Option GoError)
  | .err e => .retry e
  | .resp StatusCode decode =>
    if StatusCode ≠ StatusOK then
      .retry (.errorString ("unexpected status code " ++ toString StatusCode ++ " from " ++ url))
    else
      match decode with
      | .error e => .retry (Errorf_w "failed to decode IP response: " (some e))
      | .ok ipResp => .done (ipResp.IP, none)

/-- The `for attempt := 0; attempt <= maxRetries; attempt++` loop of `getIP` from the state
(`attempt`, `lastErr`, trace so far), and line 79 after it. `none` only when `fuel` runs out. -/
def getIPLoop (get : Nat → GetResult) (url : String) (fuel attempt : Nat)
    (lastErr : Option GoError) (tr : List Event) :
    Option ((String × Option GoError) × List Event) :=
  if attempt ≤ maxRetries then
    match fuel with
    | 0 => none
    | fuel + 1 =>
      match getIPAttempt url (get attempt) with
      | .done v => some (v, tr ++ [.httpGet url])
      | .retry e =>
        if attempt < maxRetries then
          getIPLoop get url fuel (attempt + 1) (some e) (tr ++ [.httpGet url] ++ backoff attempt)
        else
          getIPLoop get url fuel (attempt + 1) (some e) (tr ++ [.httpGet url])
  else
    some (("", some (Errorf_w ("failed to fetch IP from " ++ url ++ " after "
      ++ toString maxRetries ++ " retries: ") lastErr)), tr)

/-- Function `getIP(url)`: fetch IP from ipify API with retry logic. `get n` is the result
of the call of `http.Get` in attempt `n`. -/
def getIP (get : Nat → GetResult) (url : String) :
    Option ((String × Option GoError) × List Event) :=
  getIPLoop get url (maxRetries + 1) 0 none []

/-- GetPublicIPv4 fetches the public IPv4 address. -/
def GetPublicIPv4 (get : Nat → GetResult) : Option ((String × Option GoError) × List Event) :=
  getIP get "https://api.ipify.org/?format=json"

/-- GetPublicIPv6 fetches the public IPv6 address. -/
def GetPublicIPv6 (get : Nat → GetResult) : Option ((String × Option GoError) × List Event) :=
  getIP get "https://api64.ipify.org/?format=json"

/-! ## UpdateCloudflareDNSRecord (lines 82-138) -/

/-- Lines 105-127 of `UpdateCloudflareDNSRecord`: the treatment of the result of
`client.Do(req)`. The status code of the response is not read. -/
def updateAttempt {V : Type} (lib : Lib V) : DoResult V → Attempt (Option GoError)
  | .err e => .retry e
  | .resp _ body =>
    match body with
    | .error e => .retry (Errorf_w "failed to read response body: " (some e))
    | .ok (.error e) => .retry (Errorf_w "failed to decode Cloudflare response: " (some e))
    | .ok (.ok cfResp) =>
      if !cfResp.Success then
        let errors := if cfResp.Errors.length > 0 then lib.SprintV cfResp.Errors
          else "unknown error"
        .retry (.errorString ("cloudflare API error: " ++ errors))
      else
        .done none

/-- Lines 100-101: the two headers set on a fresh request. -/
def setHeaders (req : Request) (apiToken : String) : Request :=
  (req.HeaderSet "Content-Type" "application/json").HeaderSet "Authorization"
    ("Bearer " ++ apiToken)

/-- The `for attempt := 0; attempt <= maxRetries; attempt++` loop of
`UpdateCloudflareDNSRecord` from the state (`attempt`, `lastErr`, trace so far), and line 137
after it. `none` only when `fuel` runs out. -/
def updateLoop {V : Type} (lib : Lib V) (Do : Nat → Request → DoResult V)
    (url apiToken : String) (record : CloudflareDNSRecord) (fuel attempt : Nat)
    (lastErr : Option GoError) (tr : List Event) : Option (Option GoError × List Event) :=
  if attempt ≤ maxRetries then
    match fuel with
    | 0 => none
    | fuel + 1 =>
      match lib.Marshal record with
      | .error err => some (some (Errorf_w "failed to marshal DNS record: " (some err)), tr)
      | .ok payload =>
        match lib.NewRequest "PUT" url payload with
        | .error err => some (some (Errorf_w "failed to create request: " (some err)), tr)
        | .ok req =>
          match updateAttempt lib (Do attempt (setHeaders req apiToken)) with
          | .done v => some (v, tr ++ [.clientDo (setHeaders req apiToken)])
          | .retry e =>
            if attempt < maxRetries then
              updateLoop lib Do url apiToken record fuel (attempt + 1) (some e)
                (tr ++ [.clientDo (setHeaders req apiToken)] ++ backoff attempt)
            else
              updateLoop lib Do url apiToken record fuel (attempt + 1) (some e)
                (tr ++ [.clientDo (setHeaders req apiToken)])
  else
    some (some (Errorf_w ("failed to update DNS record after " ++ toString maxRetries
      ++ " retries: ") lastErr), tr)

/-- Line 86: the URL of the record. -/
def recordURL (zoneID recordID : String) : String :=
  "https://api.cloudflare.com/client/v4/zones/" ++ zoneID ++ "/dns_records/" ++ recordID

/-- UpdateCloudflareDNSRecord updates a DNS record on Cloudflare with retry logic. `Do n req`
is the result of the call of `client.Do(req)` in attempt `n`. -/
def UpdateCloudflareDNSRecord {V : Type} (lib : Lib V) (Do : Nat → Request → DoResult V)
    (zoneID recordID apiToken : String) (record : CloudflareDNSRecord) :
    Option (Option GoError × List Event) :=
  updateLoop lib Do (recordURL zoneID recordID) apiToken record (maxRetries + 1) 0 none []

/-! ## main (lines 140-220) -/

/-- The flag values after `flag.Parse()`. -/
structure Flags where
  zoneID : String
  recordIDv4 : String
  recordIDv6 : String
  apiToken : String
  recordName : String
  ttl : Int
  proxied : Bool
  comment : String
deriving DecidableEq, Repr

/-- Everything `main` reads from outside: the program name, the parsed flags, the value of
`os.Getenv("CF_API_TOKEN")` (empty when unset), the result streams of the two lookups and of
the two updates, and the library functions. -/
structure World (V : Type) where
  Args0 : String
  flags : Flags
  CF_API_TOKEN : String
  getV4 : Nat → GetResult
  getV6 : Nat → GetResult
  lib : Lib V
  doA : Nat → Request → DoResult V
  doAAAA : Nat → Request → DoResult V

/-- A call of one of the network operations made by `main`. -/
inductive Call where
  | GetPublicIPv4
  | GetPublicIPv6
  | UpdateCloudflareDNSRecord (zoneID recordID apiToken : String) (record : CloudflareDNSRecord)
deriving DecidableEq, Repr

/-- How a run of `main` ends: the process exit code, the network operations called in order,
and the trace of events. -/
structure MainResult where
  exitCode : Nat
  calls : List Call
  trace : List Event
deriving DecidableEq, Repr

/-- Lines 153-156: the token is the flag, or the environment variable when the flag is
empty. -/
def resolvedToken {V : Type} (w : World V) : String :=
  if w.flags.apiToken = "" then w.CF_API_TOKEN else w.flags.apiToken

/-- Line 159: the test for missing required parameters. -/
def missingRequired {V : Type} (w : World V) : Bool :=
  w.flags.zoneID = "" || w.flags.recordIDv4 = "" || w.flags.recordIDv6 = ""
    || resolvedToken w = "" || w.flags.recordName = ""

/-- Lines 185-192: the A record. -/
def recordA {V : Type} (w : World V) (ipv4 : String) : CloudflareDNSRecord :=
  { Type_ := "A", Name := w.flags.recordName, Content := ipv4, TTL := w.flags.ttl,
    Proxied := w.flags.proxied, Comment := w.flags.comment }

/-- Lines 194-201: the AAAA record. -/
def recordAAAA {V : Type} (w : World V) (ipv6 : String) : CloudflareDNSRecord :=
  { Type_ := "AAAA", Name := w.flags.recordName, Content := ipv6, TTL := w.flags.ttl,
    Proxied := w.flags.proxied, Comment := w.flags.comment }

/-- Function `main` from line 153 on, once `flag.Parse()` (line 151) has returned with the flag
values `w.flags`; the run from the command line, with `flag.Parse()`, is `mainFromArgs`.
`os.Exit(1)` ends the run with exit code 1; falling off the end of `main` ends it with exit
code 0. `none` only when a loop runs out of fuel. -/
def main {V : Type} (w : World V) : Option MainResult :=
  if missingRequired w then
    some { exitCode := 1, calls := [],
           trace := [.stderr "Error: Missing required parameters\n",
             .stderr ("Usage: " ++ w.Args0 ++ " -zone-id ZONE_ID -record-id-v4 RECORD_ID_V4"
               ++ " -record-id-v6 RECORD_ID_V6 -name DOMAIN_NAME\n"),
             .stderr "\nSet CF_API_TOKEN environment variable or use -api-token flag\n",
             .printDefaults] }
  else
    match GetPublicIPv4 w.getV4 with
    | none => none
    | some ((_, some err), t4) =>
      some { exitCode := 1, calls := [.GetPublicIPv4],
             trace := [.stdout "Fetching public IPv4 address...\n"] ++ t4
               ++ [.stderr ("Error fetching IPv4: " ++ err.Error ++ "\n")] }
    | some ((ipv4, none), t4) =>
      let tr4 := [.stdout "Fetching public IPv4 address...\n"] ++ t4
        ++ [.stdout ("Got IPv4: " ++ ipv4 ++ "\n"), .stdout "Fetching public IPv6 address...\n"]
      match GetPublicIPv6 w.getV6 with
      | none => none
      | some ((_, some err), t6) =>
        some { exitCode := 1, calls := [.GetPublicIPv4, .GetPublicIPv6],
               trace := tr4 ++ t6 ++ [.stderr ("Error fetching IPv6: " ++ err.Error ++ "\n")] }
      | some ((ipv6, none), t6) =>
        let tr6 := tr4 ++ t6
          ++ [.stdout ("Got IPv6: " ++ ipv6 ++ "\n"), .stdout "Updating Cloudflare DNS records...\n"]
        let callA := Call.UpdateCloudflareDNSRecord w.flags.zoneID w.flags.recordIDv4
          (resolvedToken w) (recordA w ipv4)
        let callAAAA := Call.UpdateCloudflareDNSRecord w.flags.zoneID w.flags.recordIDv6
          (resolvedToken w) (recordAAAA w ipv6)
        match UpdateCloudflareDNSRecord w.lib w.doA w.flags.zoneID w.flags.recordIDv4
            (resolvedToken w) (recordA w ipv4) with
        | none => none
        | some (some err, tA) =>
          some { exitCode := 1, calls := [.GetPublicIPv4, .GetPublicIPv6, callA],
                 trace := tr6 ++ tA ++ [.stderr ("Error updating A record: " ++ err.Error ++ "\n")] }
        | some (none, tA) =>
          let trA := tr6 ++ tA ++ [.stdout "✓ A record updated successfully\n"]
          match UpdateCloudflareDNSRecord w.lib w.doAAAA w.flags.zoneID w.flags.recordIDv6
              (resolvedToken w) (recordAAAA w ipv6) with
          | none => none
          | some (some err, tAAAA) =>
            some { exitCode := 1, calls := [.GetPublicIPv4, .GetPublicIPv6, callA, callAAAA],
                   trace := trA ++ tAAAA
                     ++ [.stderr ("Error updating AAAA record: " ++ err.Error ++ "\n")] }
          | some (none, tAAAA) =>
            some { exitCode := 0, calls := [.GetPublicIPv4, .GetPublicIPv6, callA, callAAAA],
                   trace := trA ++ tAAAA
                     ++ [.stdout "✓ AAAA record updated successfully\n",
                         .stdout "\nSuccessfully updated all DNS records!\n",
                         .stdout ("A record:    " ++ w.flags.recordName ++ " -> " ++ ipv4 ++ "\n"),
                         .stdout ("AAAA record: " ++ w.flags.recordName ++ " -> " ++ ipv6 ++ "\n")] }

/-! ## The command line (lines 141-151)

The eight flags of lines 142-149 and `flag.Parse()` of line 151, as the `flag` package of the
standard library runs them on `os.Args[1:]` (`FlagSet.Parse` and `FlagSet.parseOne` of the
default flag set, whose error handling is `ExitOnError`: exit code 0 for `-h` or `-help`, 2 for
a flag that does not parse). Arguments are read character by character; the tests of the
package are on the ASCII characters `-` and `=`, so that reading bytes gives the same. -/

/-- Library functions of `strconv` that the `flag` package calls. -/
structure FlagLib where
  /-- Function `strconv.ParseInt(s, 0, strconv.IntSize)`: the value, and on failure the text
  of the error as `flag` reports it (`parse error`, `value out of range`). -/
  ParseInt : String → Int × Option String
  /-- Function `strconv.Quote`, the `%q` verb. -/
  Quote : String → String

/-- The values of the flag variables before `flag.Parse()`: the defaults of lines 142-149. -/
def defaultFlags : Flags :=
  { zoneID := "", recordIDv4 := "", recordIDv6 := "", apiToken := "", recordName := "",
    ttl := 1, proxied := true, comment := "" }

/-- Function `strconv.ParseBool`. -/
def ParseBool (s : String) : Option Bool :=
  if s = "1" || s = "t" || s = "T" || s = "TRUE" || s = "true" || s = "True" then some true
  else if s = "0" || s = "f" || s = "F" || s = "FALSE" || s = "false" || s = "False" then
    some false
  else none

/-- One command-line argument as `parseOne` reads it: not a flag (`stop`), the terminator
`--`, a flag with bad syntax, or a flag name with the value after its first `=`, if any. -/
inductive FlagArg where
  | stop
  | terminator
  | badSyntax
  | named (name : String) (value : Option String)
deriving DecidableEq, Repr

/-- The loop of `parseOne` that splits `name=value` at the first `=` that is not the first
character of the name. -/
def splitName (c : Char) (cs : List Char) : FlagArg :=
  match cs.span (fun x => x != '=') with
  | (pre, _ :: post) => .named (String.mk (c :: pre)) (some (String.mk post))
  | (pre, []) => .named (String.mk (c :: pre)) none

/-- The test `len(name) == 0 || name[0] == '-' || name[0] == '='` of `parseOne` on the text
after the minus signs, and the split of the name. -/
def flagName (c : Char) (cs : List Char) : FlagArg :=
  if c = '-' || c = '=' then .badSyntax else splitName c cs

/-- The head of `parseOne`: an argument shorter than 2 or not starting with `-` ends the
flags, `--` terminates them, and one or two minus signs start a flag. -/
def readArg (s : String) : FlagArg :=
  match s.data with
  | '-' :: '-' :: [] => .terminator
  | '-' :: '-' :: c :: cs => flagName c cs
  | '-' :: c :: cs => flagName c cs
  | _ => .stop

/-- The flags defined in lines 142-149. -/
inductive Formal where
  | zoneID
  | recordIDv4
  | recordIDv6
  | apiToken
  | recordName
  | ttl
  | proxied
  | comment
deriving DecidableEq, Repr

/-- The names under which lines 142-149 define the flags (`f.formal[name]`). -/
def Formal.lookup (name : String) : Option Formal :=
  if name = "zone-id" then some .zoneID
  else if name = "record-id-v4" then some .recordIDv4
  else if name = "record-id-v6" then some .recordIDv6
  else if name = "api-token" then some .apiToken
  else if name = "name" then some .recordName
  else if name = "ttl" then some .ttl
  else if name = "proxied" then some .proxied
  else if name = "comment" then some .comment
  else none

/-- Method `IsBoolFlag`: only `-proxied` is defined with `flag.Bool`. -/
def Formal.IsBoolFlag : Formal → Bool
  | .proxied => true
  | _ => false

/-- Method `Set` of the value of a flag: the new flag values and the error, if any. The
`int` and `bool` values are assigned also when the text does not parse. -/
def Formal.Set (F : FlagLib) (flags : Flags) (value : String) : Formal → Flags × Option String
  | .zoneID => ({ flags with zoneID := value }, none)
  | .recordIDv4 => ({ flags with recordIDv4 := value }, none)
  | .recordIDv6 => ({ flags with recordIDv6 := value }, none)
  | .apiToken => ({ flags with apiToken := value }, none)
  | .recordName => ({ flags with recordName := value }, none)
  | .comment => ({ flags with comment := value }, none)
  | .ttl => ({ flags with ttl := (F.ParseInt value).1 }, (F.ParseInt value).2)
  | .proxied =>
    match ParseBool value with
    | some b => ({ flags with proxied := b }, none)
    | none => ({ flags with proxied := false }, some "parse error")

/-- Result of one call of `parseOne`: a flag was seen (`true, nil`), the flags are over
(`false, nil`), help was asked for (`ErrHelp`), or an error. -/
inductive Step where
  | seen (args : List String) (flags : Flags)
  | done
  | help
  | failed (msg : String) (flags : Flags)
deriving DecidableEq, Repr

/-- Method `parseOne` of the default flag set on the remaining arguments. -/
def parseOne (F : FlagLib) (args : List String) (flags : Flags) : Step :=
  match args with
  | [] => .done
  | s :: args =>
    match readArg s with
    | .stop => .done
    | .terminator => .done
    | .badSyntax => .failed ("bad flag syntax: " ++ s) flags
    | .named name value =>
      match Formal.lookup name with
      | none =>
        if name = "help" || name = "h" then .help
        else .failed ("flag provided but not defined: -" ++ name) flags
      | some flag =>
        if flag.IsBoolFlag then
          match value with
          | some v =>
            match flag.Set F flags v with
            | (flags, none) => .seen args flags
            | (flags, some e) => .failed ("invalid boolean value " ++ F.Quote v ++ " for -"
                ++ name ++ ": " ++ e) flags
          | none =>
            match flag.Set F flags "true" with
            | (flags, none) => .seen args flags
            | (flags, some e) => .failed ("invalid boolean flag " ++ name ++ ": " ++ e) flags
        else
          match value, args with
          | none, [] => .failed ("flag needs an argument: -" ++ name) flags
          | none, v :: args =>
            match flag.Set F flags v with
            | (flags, none) => .seen args flags
            | (flags, some e) => .failed ("invalid value " ++ F.Quote v ++ " for flag -"
                ++ name ++ ": " ++ e) flags
          | some v, args =>
            match flag.Set F flags v with
            | (flags, none) => .seen args flags
            | (flags, some e) => .failed ("invalid value " ++ F.Quote v ++ " for flag -"
                ++ name ++ ": " ++ e) flags

/-- How `flag.Parse()` ends: it returns, or it exits the process for `-h`/`-help`
(`os.Exit(0)`) or for an error (`os.Exit(2)`). -/
inductive ParseOutcome where
  | returned
  | help
  | failed (msg : String)
deriving DecidableEq, Repr

/-- The `for` loop of `FlagSet.Parse` around `parseOne`, with the flag values it ends with.
`none` only when `fuel` runs out. -/
def parseLoop (F : FlagLib) : Nat → List String → Flags → Option (Flags × ParseOutcome)
  | 0, _, _ => none
  | fuel + 1, args, flags =>
    match parseOne F args flags with
    | .seen args flags => parseLoop F fuel args flags
    | .done => some (flags, .returned)
    | .help => some (flags, .help)
    | .failed msg flags => some (flags, .failed msg)

/-- Lines 142-151: the flag values and the outcome of `flag.Parse()` on `os.Args[1:]`. -/
def flagParse (F : FlagLib) (args : List String) : Option (Flags × ParseOutcome) :=
  parseLoop F (args.length + 1) args defaultFlags

/-- The default `flag.Usage`, printed on standard error. -/
def usage (Args0 : String) : List Event :=
  [.stderr ("Usage of " ++ Args0 ++ ":\n"), .printDefaults]

/-- Function `main` from the command line `args` (`os.Args[1:]`): `flag.Parse()` ends the run
with exit code 0 after the usage text when it meets `-h` or `-help`, and with exit code 2
after the error and the usage text when a flag does not parse; when it returns, the run goes
on with the parsed flag values (`w.flags` is not read). -/
def mainFromArgs {V : Type} (F : FlagLib) (args : List String) (w : World V) :
    Option MainResult :=
  match flagParse F args with
  | none => none
  | some (_, .help) => some { exitCode := 0, calls := [], trace := usage w.Args0 }
  | some (_, .failed msg) =>
    some { exitCode := 2, calls := [], trace := [.stderr (msg ++ "\n")] ++ usage w.Args0 }
  | some (flags, .returned) => main { w with flags := flags }

/-! ## Reading a trace -/

/-- An event that is one network attempt (a call of `http.Get` or of `client.Do`). -/
def Event.isRequest : Event → Bool
  | .httpGet _ => true
  | .clientDo _ => true
  | _ => false

/-- The number of network attempts made in a trace. -/
def attempts (tr : List Event) : Nat := (tr.filter Event.isRequest).length

/-- The durations of the sleeps of a trace, in order. -/
def sleeps : List Event → List Nat
  | [] => []
  | .sleep d :: tr => d :: sleeps tr
  | _ :: tr => sleeps tr

/-- The network attempts and the sleeps of a trace, in order (console output dropped). -/
def skeleton : List Event → List Event
  | [] => []
  | .httpGet url :: tr => .httpGet url :: skeleton tr
  | .clientDo req :: tr => .clientDo req :: skeleton tr
  | .sleep d :: tr => .sleep d :: skeleton tr
  | _ :: tr => skeleton tr

/-- An attempt that returned from inside the loop. -/
def Attempt.isDone {α : Type} : Attempt α → Bool
  | .done _ => true
  | .retry _ => false

/-- The error an attempt leaves in `lastErr`. -/
def Attempt.err {α : Type} : Attempt α → Option GoError
  | .done _ => none
  | .retry e => some e

/-- The trace of the `n` failed attempts of index `a`, .., `a + n - 1`, each one the
request `ev`, followed by its backoff when its index is below `maxRetries`. -/
def failTrace (ev : Event) : Nat → Nat → List Event
  | _, 0 => []
  | a, n + 1 => [ev] ++ (if a < maxRetries then backoff a else []) ++ failTrace ev (a + 1) n

/-- Text `s` contains `sub`. -/
def Contains (s sub : String) : Prop := ∃ a b : String, s = a ++ sub ++ b

/-! ## Concrete inputs -/

/-- A library instance for concrete runs: the record is serialised to some text, the request
is built unless the URL is the one of zone `%zz` (an invalid URL escape, which
`http.NewRequest` rejects), and a list of strings prints as `%v` prints it. -/
def sampleLib : Lib String where
  Marshal := fun record => .ok (record.Type_ ++ " " ++ record.Name ++ " " ++ record.Content)
  NewRequest := fun method url payload =>
    if url = "https://api.cloudflare.com/client/v4/zones/%zz/dns_records/r" then
      .error (.errorString ("parse \"" ++ url ++ "\": invalid URL escape \"%zz\""))
    else .ok { Method := method, URL := url, Body := payload, Header := [] }
  SprintV := fun errors => "[" ++ " ".intercalate errors ++ "]"

/-- An instance of `strconv` for concrete runs: `300` parses as an integer and no other
text does, and a text is quoted by two double quotes. -/
def sampleFlagLib : FlagLib where
  ParseInt := fun s => if s = "300" then (300, none) else (0, some "parse error")
  Quote := fun s => "\"" ++ s ++ "\""

/-- A record for concrete runs. -/
def sampleRecord : CloudflareDNSRecord :=
  { Type_ := "A", Name := "home.example.org", Content := "203.0.113.7", TTL := 1,
    Proxied := true, Comment := "" }

/-- The request `UpdateCloudflareDNSRecord` builds for `sampleRecord` in zone `z`, record
`r`, before the headers are set. -/
def sampleRequest : Request :=
  { Method := "PUT", URL := "https://api.cloudflare.com/client/v4/zones/z/dns_records/r",
    Body := "A home.example.org 203.0.113.7", Header := [] }

/-- The lookup of scenario 2: status 503 on the first three attempts, then 200 with an
address. -/
def scenario2 (n : Nat) : GetResult :=
  if n < 3 then .resp 503 (.ok ⟨""⟩) else .resp 200 (.ok ⟨"203.0.113.7"⟩)

/-- The world of scenario 5: `-name` is omitted and `CF_API_TOKEN` is unset. -/
def scenario5 : World String :=
  { Args0 := "myopsida",
    flags := { zoneID := "z", recordIDv4 := "r4", recordIDv6 := "r6", apiToken := "",
               recordName := "", ttl := 1, proxied := true, comment := "" },
    CF_API_TOKEN := "",
    getV4 := fun _ => .resp 200 (.ok ⟨"203.0.113.7"⟩),
    getV6 := fun _ => .resp 200 (.ok ⟨"2001:db8::7"⟩),
    lib := sampleLib,
    doA := fun _ _ => .resp 200 (.ok (.ok { Success := true, Errors := [], Result := none })),
    doAAAA := fun _ _ => .resp 200 (.ok (.ok { Success := true, Errors := [], Result := none })) }

/-- A world with all required parameters in which every call is answered with a success. -/
def sampleWorld : World String :=
  { Args0 := "myopsida",
    flags := { zoneID := "z", recordIDv4 := "r4", recordIDv6 := "r6", apiToken := "",
               recordName := "home.example.org", ttl := 1, proxied := true, comment := "" },
    CF_API_TOKEN := "t",
    getV4 := fun _ => .resp 200 (.ok ⟨"203.0.113.7"⟩),
    getV6 := fun _ => .resp 200 (.ok ⟨"2001:db8::7"⟩),
    lib := sampleLib,
    doA := fun _ _ => .resp 200 (.ok (.ok { Success := true, Errors := [], Result := none })),
    doAAAA := fun _ _ => .resp 200 (.ok (.ok { Success := true, Errors := [], Result := none })) }

/-! ## Lemmas on traces -/

theorem attempts_append (t u : List Event) : attempts (t ++ u) = attempts t + attempts u := by
  simp [attempts]

theorem sleeps_append (t u : List Event) : sleeps (t ++ u) = sleeps t ++ sleeps u := by
  induction t with
  | nil => rfl
  | cons e t ih => cases e <;> simp [sleeps, ih]

theorem skeleton_append (t u : List Event) : skeleton (t ++ u) = skeleton t ++ skeleton u := by
  induction t with
  | nil => rfl
  | cons e t ih => cases e <;> simp [skeleton, ih]

theorem attempts_backoff (a : Nat) : attempts (backoff a) = 0 := rfl

theorem sleeps_backoff (a : Nat) : sleeps (backoff a) = [waitTime a] := rfl

theorem skeleton_backoff (a : Nat) : skeleton (backoff a) = [.sleep (waitTime a)] := rfl

theorem attempts_failTrace (ev : Event) (h : ev.isRequest = true) (a n : Nat) :
    attempts (failTrace ev a n) = n := by
  induction n generalizing a with
  | zero => rfl
  | succ n ih =>
    simp only [failTrace, attempts_append, ih]
    have h1 : attempts [ev] = 1 := by simp [attempts, h]
    have h0 : attempts [] = 0 := rfl
    split <;> simp only [h1, h0, attempts_backoff] <;> omega

/-! ## The loop of getIP -/

theorem getIPLoop_exit (get : Nat → GetResult) (url : String) (fuel attempt : Nat)
    (lastErr : Option GoError) (tr : List Event) (h : maxRetries < attempt) :
    getIPLoop get url fuel attempt lastErr tr
      = some (("", some (Errorf_w ("failed to fetch IP from " ++ url ++ " after "
          ++ toString maxRetries ++ " retries: ") lastErr)), tr) := by
  unfold getIPLoop
  rw [if_neg (by omega)]

theorem getIPLoop_done (get : Nat → GetResult) (url : String) (fuel attempt : Nat)
    (lastErr : Option GoError) (tr : List Event) (v : String × Option GoError)
    (h : attempt ≤ maxRetries) (hv : getIPAttempt url (get attempt) = .done v) :
    getIPLoop get url (fuel + 1) attempt lastErr tr = some (v, tr ++ [.httpGet url]) := by
  rw [getIPLoop, if_pos h]
  simp only [hv]

theorem getIPLoop_retry (get : Nat → GetResult) (url : String) (fuel attempt : Nat)
    (lastErr : Option GoError) (tr : List Event)
    (h : attempt ≤ maxRetries) (hv : (getIPAttempt url (get attempt)).isDone = false) :
    getIPLoop get url (fuel + 1) attempt lastErr tr
      = getIPLoop get url fuel (attempt + 1) (getIPAttempt url (get attempt)).err
          (tr ++ failTrace (.httpGet url) attempt 1) := by
  rw [getIPLoop, if_pos h]
  cases hr : getIPAttempt url (get attempt) with
  | done v => rw [hr] at hv; cases hv
  | retry e =>
    simp only [Attempt.err, failTrace]
    split <;> simp

theorem failTrace_succ_append (ev : Event) (a n : Nat) :
    failTrace ev a 1 ++ failTrace ev (a + 1) n = failTrace ev a (n + 1) := by
  simp [failTrace]

/-- After `n` failed attempts from index `a` the loop is at index `a + n`. -/
theorem getIPLoop_fails (get : Nat → GetResult) (url : String) (fuel : Nat) :
    ∀ (n a : Nat) (lastErr : Option GoError) (tr : List Event),
      a + n ≤ maxRetries + 1 →
      (∀ j, a ≤ j → j < a + n → (getIPAttempt url (get j)).isDone = false) →
      getIPLoop get url (fuel + n) a lastErr tr
        = getIPLoop get url fuel (a + n)
            (if n = 0 then lastErr else (getIPAttempt url (get (a + n - 1))).err)
            (tr ++ failTrace (.httpGet url) a n) := by
  intro n
  induction n with
  | zero => intro a lastErr tr _ _; simp [failTrace]
  | succ n ih =>
    intro a lastErr tr hle hf
    have ha : a ≤ maxRetries := by omega
    have h1 : fuel + (n + 1) = (fuel + n) + 1 := by omega
    rw [h1, getIPLoop_retry get url _ a lastErr tr ha (hf a (le_refl a) (by omega))]
    rw [ih (a + 1) _ _ (by omega) (fun j h1 h2 => hf j (by omega) (by omega))]
    have h2 : a + 1 + n = a + (n + 1) := by omega
    rw [List.append_assoc, failTrace_succ_append, h2]
    congr 1
    by_cases hn : n = 0
    · subst hn; simp
    · simp [hn]

/-- First success at attempt `k`: the value of that attempt after `k` failed attempts. -/
theorem getIP_first_done (get : Nat → GetResult) (url : String) (k : Nat)
    (v : String × Option GoError) (hk : k ≤ maxRetries)
    (hf : ∀ j, j < k → (getIPAttempt url (get j)).isDone = false)
    (hv : getIPAttempt url (get k) = .done v) :
    getIP get url = some (v, failTrace (.httpGet url) 0 k ++ [.httpGet url]) := by
  have h1 : maxRetries + 1 = (maxRetries - k) + 1 + k := by omega
  rw [getIP, h1, getIPLoop_fails get url _ k 0 none [] (by omega)
    (fun j _ h2 => hf j (by omega))]
  rw [Nat.zero_add, getIPLoop_done get url _ k _ _ v hk hv]
  simp

/-- No success in six attempts: the failure of line 79 after six failed attempts. -/
theorem getIP_all_fail (get : Nat → GetResult) (url : String)
    (hf : ∀ j, j ≤ maxRetries → (getIPAttempt url (get j)).isDone = false) :
    getIP get url
      = some (("", some (Errorf_w ("failed to fetch IP from " ++ url ++ " after "
          ++ toString maxRetries ++ " retries: ") (getIPAttempt url (get maxRetries)).err)),
          failTrace (.httpGet url) 0 (maxRetries + 1)) := by
  have h1 : maxRetries + 1 = 0 + (maxRetries + 1) := by omega
  rw [getIP]
  conv_lhs => rw [h1]
  rw [getIPLoop_fails get url 0 (maxRetries + 1) 0 none [] (by omega)
    (fun j _ h2 => hf j (by omega))]
  rw [getIPLoop_exit _ _ _ _ _ _ (by omega)]
  simp

/-- Either some attempt below `n` is the first that is done, or all of them fail. -/
theorem first_done_or_all_fail (p : Nat → Bool) (n : Nat) :
    (∀ j, j < n → p j = false) ∨ ∃ k, k < n ∧ (∀ j, j < k → p j = false) ∧ p k = true := by
  induction n with
  | zero => left; intro j hj; omega
  | succ n ih =>
    rcases ih with h | ⟨k, hk, hf, hp⟩
    · cases hp : p n
      · left
        intro j hj
        rcases Nat.lt_succ_iff_lt_or_eq.mp hj with h1 | h1
        · exact h j h1
        · rw [h1]; exact hp
      · right; exact ⟨n, by omega, h, hp⟩
    · right; exact ⟨k, by omega, hf, hp⟩

theorem Attempt.isDone_iff {α : Type} (x : Attempt α) : x.isDone = true ↔ ∃ v, x = .done v := by
  cases x <;> simp [Attempt.isDone]

/-! ## The loop of UpdateCloudflareDNSRecord -/

section UpdateLoop

variable {V : Type} (lib : Lib V) (Do : Nat → Request → DoResult V)
  (url apiToken : String) (record : CloudflareDNSRecord)

theorem updateLoop_exit (fuel attempt : Nat) (lastErr : Option GoError) (tr : List Event)
    (h : maxRetries < attempt) :
    updateLoop lib Do url apiToken record fuel attempt lastErr tr
      = some (some (Errorf_w ("failed to update DNS record after " ++ toString maxRetries
          ++ " retries: ") lastErr), tr) := by
  unfold updateLoop
  rw [if_neg (by omega)]

theorem updateLoop_marshal_error (fuel attempt : Nat) (lastErr : Option GoError)
    (tr : List Event) (err : GoError) (h : attempt ≤ maxRetries)
    (hm : lib.Marshal record = .error err) :
    updateLoop lib Do url apiToken record (fuel + 1) attempt lastErr tr
      = some (some (Errorf_w "failed to marshal DNS record: " (some err)), tr) := by
  rw [updateLoop, if_pos h]
  simp only [hm]

theorem updateLoop_request_error (fuel attempt : Nat) (lastErr : Option GoError)
    (tr : List Event) (payload : String) (err : GoError) (h : attempt ≤ maxRetries)
    (hm : lib.Marshal record = .ok payload)
    (hr : lib.NewRequest "PUT" url payload = .error err) :
    updateLoop lib Do url apiToken record (fuel + 1) attempt lastErr tr
      = some (some (Errorf_w "failed to create request: " (some err)), tr) := by
  rw [updateLoop, if_pos h]
  simp only [hm, hr]

variable (payload : String) (req : Request)

theorem updateLoop_done (fuel attempt : Nat) (lastErr : Option GoError) (tr : List Event)
    (v : Option GoError) (h : attempt ≤ maxRetries)
    (hm : lib.Marshal record = .ok payload) (hr : lib.NewRequest "PUT" url payload = .ok req)
    (hv : updateAttempt lib (Do attempt (setHeaders req apiToken)) = .done v) :
    updateLoop lib Do url apiToken record (fuel + 1) attempt lastErr tr
      = some (v, tr ++ [.clientDo (setHeaders req apiToken)]) := by
  rw [updateLoop, if_pos h]
  simp only [hm, hr, hv]

theorem updateLoop_retry (fuel attempt : Nat) (lastErr : Option GoError) (tr : List Event)
    (h : attempt ≤ maxRetries)
    (hm : lib.Marshal record = .ok payload) (hr : lib.NewRequest "PUT" url payload = .ok req)
    (hv : (updateAttempt lib (Do attempt (setHeaders req apiToken))).isDone = false) :
    updateLoop lib Do url apiToken record (fuel + 1) attempt lastErr tr
      = updateLoop lib Do url apiToken record fuel (attempt + 1)
          (updateAttempt lib (Do attempt (setHeaders req apiToken))).err
          (tr ++ failTrace (.clientDo (setHeaders req apiToken)) attempt 1) := by
  rw [updateLoop, if_pos h]
  simp only [hm, hr]
  cases hx : updateAttempt lib (Do attempt (setHeaders req apiToken)) with
  | done v => rw [hx] at hv; cases hv
  | retry e =>
    simp only [Attempt.err, failTrace]
    split <;> simp

/-- After `n` failed attempts from index `a` the loop is at index `a + n`. -/
theorem updateLoop_fails (fuel : Nat)
    (hm : lib.Marshal record = .ok payload) (hr : lib.NewRequest "PUT" url payload = .ok req) :
    ∀ (n a : Nat) (lastErr : Option GoError) (tr : List Event),
      a + n ≤ maxRetries + 1 →
      (∀ j, a ≤ j → j < a + n →
        (updateAttempt lib (Do j (setHeaders req apiToken))).isDone = false) →
      updateLoop lib Do url apiToken record (fuel + n) a lastErr tr
        = updateLoop lib Do url apiToken record fuel (a + n)
            (if n = 0 then lastErr
              else (updateAttempt lib (Do (a + n - 1) (setHeaders req apiToken))).err)
            (tr ++ failTrace (.clientDo (setHeaders req apiToken)) a n) := by
  intro n
  induction n with
  | zero => intro a lastErr tr _ _; simp [failTrace]
  | succ n ih =>
    intro a lastErr tr hle hf
    have ha : a ≤ maxRetries := by omega
    have h1 : fuel + (n + 1) = (fuel + n) + 1 := by omega
    rw [h1, updateLoop_retry lib Do url apiToken record payload req _ a lastErr tr ha hm hr
      (hf a (le_refl a) (by omega))]
    rw [ih (a + 1) _ _ (by omega) (fun j h1 h2 => hf j (by omega) (by omega))]
    have h2 : a + 1 + n = a + (n + 1) := by omega
    rw [List.append_assoc, failTrace_succ_append, h2]
    congr 1
    by_cases hn : n = 0
    · subst hn; simp
    · simp [hn]

end UpdateLoop

/-- First success at attempt `k`: the value of that attempt after `k` failed attempts. -/
theorem update_first_done {V : Type} (lib : Lib V) (Do : Nat → Request → DoResult V)
    (zoneID recordID apiToken : String) (record : CloudflareDNSRecord)
    (payload : String) (req : Request) (k : Nat) (v : Option GoError)
    (hm : lib.Marshal record = .ok payload)
    (hr : lib.NewRequest "PUT" (recordURL zoneID recordID) payload = .ok req)
    (hk : k ≤ maxRetries)
    (hf : ∀ j, j < k → (updateAttempt lib (Do j (setHeaders req apiToken))).isDone = false)
    (hv : updateAttempt lib (Do k (setHeaders req apiToken)) = .done v) :
    UpdateCloudflareDNSRecord lib Do zoneID recordID apiToken record
      = some (v, failTrace (.clientDo (setHeaders req apiToken)) 0 k
          ++ [.clientDo (setHeaders req apiToken)]) := by
  have h1 : maxRetries + 1 = (maxRetries - k) + 1 + k := by omega
  rw [UpdateCloudflareDNSRecord, h1, updateLoop_fails lib Do _ apiToken record payload req _ hm hr
    k 0 none [] (by omega) (fun j _ h2 => hf j (by omega))]
  rw [Nat.zero_add, updateLoop_done lib Do _ apiToken record payload req _ k _ _ v hk hm hr hv]
  simp

/-- No success in six attempts: the failure of line 137 after six failed attempts. -/
theorem update_all_fail {V : Type} (lib : Lib V) (Do : Nat → Request → DoResult V)
    (zoneID recordID apiToken : String) (record : CloudflareDNSRecord)
    (payload : String) (req : Request)
    (hm : lib.Marshal record = .ok payload)
    (hr : lib.NewRequest "PUT" (recordURL zoneID recordID) payload = .ok req)
    (hf : ∀ j, j ≤ maxRetries →
      (updateAttempt lib (Do j (setHeaders req apiToken))).isDone = false) :
    UpdateCloudflareDNSRecord lib Do zoneID recordID apiToken record
      = some (some (Errorf_w ("failed to update DNS record after " ++ toString maxRetries
            ++ " retries: ") (updateAttempt lib (Do maxRetries (setHeaders req apiToken))).err),
          failTrace (.clientDo (setHeaders req apiToken)) 0 (maxRetries + 1)) := by
  have h1 : maxRetries + 1 = 0 + (maxRetries + 1) := by omega
  rw [UpdateCloudflareDNSRecord]
  conv_lhs => rw [h1]
  rw [updateLoop_fails lib Do _ apiToken record payload req 0 hm hr (maxRetries + 1) 0 none []
    (by omega) (fun j _ h2 => hf j (by omega))]
  rw [updateLoop_exit _ _ _ _ _ _ _ _ _ (by omega)]
  simp

/-! ## The trace of failed attempts -/

theorem failTrace_add (ev : Event) (n m : Nat) :
    ∀ a, failTrace ev a (n + m) = failTrace ev a n ++ failTrace ev (a + n) m := by
  induction n with
  | zero => intro a; simp [failTrace]
  | succ n ih =>
    intro a
    have h1 : n + 1 + m = (n + m) + 1 := by omega
    have h2 : a + (n + 1) = a + 1 + n := by omega
    rw [h1, failTrace, failTrace, ih (a + 1), h2]
    simp

theorem failTrace_last (ev : Event) : failTrace ev maxRetries 1 = [ev] := by
  simp [failTrace, maxRetries]

theorem skeleton_request (ev : Event) (h : ev.isRequest = true) (tr : List Event) :
    skeleton (ev :: tr) = ev :: skeleton tr := by
  cases ev <;> simp_all [skeleton, Event.isRequest]

theorem sleeps_request (ev : Event) (h : ev.isRequest = true) (tr : List Event) :
    sleeps (ev :: tr) = sleeps tr := by
  cases ev <;> simp_all [sleeps, Event.isRequest]

theorem skeleton_failTrace (ev : Event) (h : ev.isRequest = true) :
    ∀ n a, a + n ≤ maxRetries →
      skeleton (failTrace ev a n)
        = (List.range' a n).flatMap fun i => [ev, .sleep (5 * Second * 2 ^ i)] := by
  intro n
  induction n with
  | zero => intro a _; rfl
  | succ n ih =>
    intro a ha
    have h1 : a < maxRetries := by omega
    rw [failTrace, if_pos h1, List.range'_succ, List.flatMap_cons, List.append_assoc,
      List.singleton_append, skeleton_request ev h, skeleton_append, skeleton_backoff,
      ih (a + 1) (by omega)]
    rfl

theorem sleeps_failTrace (ev : Event) (h : ev.isRequest = true) :
    ∀ n a, a + n ≤ maxRetries →
      sleeps (failTrace ev a n) = (List.range' a n).map fun i => 5 * Second * 2 ^ i := by
  intro n
  induction n with
  | zero => intro a _; rfl
  | succ n ih =>
    intro a ha
    have h1 : a < maxRetries := by omega
    rw [failTrace, if_pos h1, List.range'_succ, List.map_cons, List.append_assoc,
      List.singleton_append, sleeps_request ev h, sleeps_append, sleeps_backoff,
      ih (a + 1) (by omega)]
    rfl

theorem skeleton_failTrace_all (ev : Event) (h : ev.isRequest = true) :
    skeleton (failTrace ev 0 (maxRetries + 1))
      = ((List.range 5).flatMap fun i => [ev, .sleep (5 * Second * 2 ^ i)]) ++ [ev] := by
  rw [failTrace_add, skeleton_append, skeleton_failTrace ev h _ _ (by omega), Nat.zero_add,
    failTrace_last, skeleton_request ev h, List.range_eq_range']
  rfl

theorem sleeps_failTrace_all (ev : Event) (h : ev.isRequest = true) :
    sleeps (failTrace ev 0 (maxRetries + 1)) = (List.range 5).map fun i => 5 * Second * 2 ^ i := by
  rw [failTrace_add, sleeps_append, sleeps_failTrace ev h _ _ (by omega), Nat.zero_add,
    failTrace_last, sleeps_request ev h, List.range_eq_range']
  simp [sleeps, maxRetries]

theorem updateAttempt_done {V : Type} (lib : Lib V) (r : DoResult V) (v : Option GoError)
    (h : updateAttempt lib r = .done v) : v = none := by
  unfold updateAttempt at h
  split at h
  · cases h
  · split at h
    · cases h
    · cases h
    · split at h
      · cases h
      · cases h; rfl

/-- Every run of `getIP` returns a result, and its trace is the one of some number of failed
attempts followed by a successful one, or of six failed attempts. -/
theorem getIP_cases (get : Nat → GetResult) (url : String) :
    (∃ k v, k ≤ maxRetries ∧ (∀ j, j < k → (getIPAttempt url (get j)).isDone = false)
        ∧ getIPAttempt url (get k) = .done v
        ∧ getIP get url = some (v, failTrace (.httpGet url) 0 k ++ [.httpGet url]))
    ∨ ((∀ j, j ≤ maxRetries → (getIPAttempt url (get j)).isDone = false)
        ∧ getIP get url
          = some (("", some (Errorf_w ("failed to fetch IP from " ++ url ++ " after "
              ++ toString maxRetries ++ " retries: ") (getIPAttempt url (get maxRetries)).err)),
              failTrace (.httpGet url) 0 (maxRetries + 1))) := by
  rcases first_done_or_all_fail (fun j => (getIPAttempt url (get j)).isDone) (maxRetries + 1)
    with h | ⟨k, hk, hf, hp⟩
  · right
    have hf : ∀ j, j ≤ maxRetries → (getIPAttempt url (get j)).isDone = false :=
      fun j hj => h j (by omega)
    exact ⟨hf, getIP_all_fail get url hf⟩
  · left
    obtain ⟨v, hv⟩ := (Attempt.isDone_iff _).mp hp
    exact ⟨k, v, by omega, hf, hv, getIP_first_done get url k v (by omega) hf hv⟩

/-- Every run of `UpdateCloudflareDNSRecord` whose request can be built returns a result, and
its trace is the one of some number of failed attempts followed by a successful one, or of six
failed attempts. -/
theorem update_cases {V : Type} (lib : Lib V) (Do : Nat → Request → DoResult V)
    (zoneID recordID apiToken : String) (record : CloudflareDNSRecord)
    (payload : String) (req : Request)
    (hm : lib.Marshal record = .ok payload)
    (hr : lib.NewRequest "PUT" (recordURL zoneID recordID) payload = .ok req) :
    (∃ k, k ≤ maxRetries
        ∧ (∀ j, j < k → (updateAttempt lib (Do j (setHeaders req apiToken))).isDone = false)
        ∧ updateAttempt lib (Do k (setHeaders req apiToken)) = .done none
        ∧ UpdateCloudflareDNSRecord lib Do zoneID recordID apiToken record
          = some (none, failTrace (.clientDo (setHeaders req apiToken)) 0 k
              ++ [.clientDo (setHeaders req apiToken)]))
    ∨ ((∀ j, j ≤ maxRetries →
          (updateAttempt lib (Do j (setHeaders req apiToken))).isDone = false)
        ∧ UpdateCloudflareDNSRecord lib Do zoneID recordID apiToken record
          = some (some (Errorf_w ("failed to update DNS record after " ++ toString maxRetries
                ++ " retries: ")
                (updateAttempt lib (Do maxRetries (setHeaders req apiToken))).err),
              failTrace (.clientDo (setHeaders req apiToken)) 0 (maxRetries + 1))) := by
  rcases first_done_or_all_fail
    (fun j => (updateAttempt lib (Do j (setHeaders req apiToken))).isDone) (maxRetries + 1)
    with h | ⟨k, hk, hf, hp⟩
  · right
    have hf : ∀ j, j ≤ maxRetries →
        (updateAttempt lib (Do j (setHeaders req apiToken))).isDone = false :=
      fun j hj => h j (by omega)
    exact ⟨hf, update_all_fail lib Do zoneID recordID apiToken record payload req hm hr hf⟩
  · left
    obtain ⟨v, hv⟩ := (Attempt.isDone_iff _).mp hp
    have hv0 : v = none := updateAttempt_done lib _ v hv
    subst hv0
    exact ⟨k, by omega, hf, hv,
      update_first_done lib Do zoneID recordID apiToken record payload req k none hm hr
        (by omega) hf hv⟩

theorem attempts_first_done (ev : Event) (h : ev.isRequest = true) (k : Nat) :
    attempts (failTrace ev 0 k ++ [ev]) = k + 1 := by
  rw [attempts_append, attempts_failTrace ev h]
  simp [attempts, h]

/-! ## C1: the loops stop at the first successful attempt -/

theorem update_attempts_le {V : Type} (lib : Lib V) (Do : Nat → Request → DoResult V)
    (zoneID recordID apiToken : String) (record : CloudflareDNSRecord) :
    ∃ res tr, UpdateCloudflareDNSRecord lib Do zoneID recordID apiToken record = some (res, tr)
      ∧ attempts tr ≤ 6 := by
  cases hm : lib.Marshal record with
  | error err =>
    exact ⟨_, _, updateLoop_marshal_error lib Do _ apiToken record maxRetries 0 none [] err
      (Nat.zero_le _) hm, Nat.zero_le _⟩
  | ok payload =>
    cases hr : lib.NewRequest "PUT" (recordURL zoneID recordID) payload with
    | error err =>
      exact ⟨_, _, updateLoop_request_error lib Do _ apiToken record maxRetries 0 none []
        payload err (Nat.zero_le _) hm hr, Nat.zero_le _⟩
    | ok req =>
      rcases update_cases lib Do zoneID recordID apiToken record payload req hm hr
        with ⟨k, hk, _, _, h⟩ | ⟨_, h⟩
      · refine ⟨_, _, h, ?_⟩
        rw [attempts_first_done (.clientDo (setHeaders req apiToken)) rfl k]
        have : maxRetries = 5 := rfl
        omega
      · exact ⟨_, _, h,
          le_of_eq (attempts_failTrace (.clientDo (setHeaders req apiToken)) rfl 0 6)⟩

/-- C1. Both retry loops stop at the first successful attempt and return its value: when the
first success is at attempt index `k ≤ 5`, exactly `k + 1` attempts are made and the result is
the value of that attempt (for `getIP` the `ip` field of that response, for the update a nil
error); when none of the six attempts succeeds exactly 6 attempts are made and an error is
returned. Every run returns a result after at most 6 attempts, and after exactly one when the
first attempt succeeds (`k = 0`). The attempts of the update are the calls of `client.Do` on
the request built from the record (`payload`, `req`). -/
theorem retry_stops_at_first_success {V : Type} (get : Nat → GetResult) (url : String)
    (lib : Lib V) (Do : Nat → Request → DoResult V)
    (zoneID recordID apiToken : String) (record : CloudflareDNSRecord) :
    (∀ k ipResp, k ≤ 5 →
        (∀ j, j < k → (getIPAttempt url (get j)).isDone = false) →
        get k = .resp 200 (.ok ipResp) →
        ∃ tr, getIP get url = some ((ipResp.IP, none), tr) ∧ attempts tr = k + 1)
    ∧ ((∀ j, j ≤ 5 → (getIPAttempt url (get j)).isDone = false) →
        ∃ e tr, getIP get url = some (("", some e), tr) ∧ attempts tr = 6)
    ∧ (∃ res tr, getIP get url = some (res, tr) ∧ attempts tr ≤ 6)
    ∧ (∀ payload req, lib.Marshal record = .ok payload →
        lib.NewRequest "PUT" (recordURL zoneID recordID) payload = .ok req →
        (∀ k, k ≤ 5 →
          (∀ j, j < k → (updateAttempt lib (Do j (setHeaders req apiToken))).isDone = false) →
          (updateAttempt lib (Do k (setHeaders req apiToken))).isDone = true →
          ∃ tr, UpdateCloudflareDNSRecord lib Do zoneID recordID apiToken record
              = some (none, tr) ∧ attempts tr = k + 1)
        ∧ ((∀ j, j ≤ 5 →
            (updateAttempt lib (Do j (setHeaders req apiToken))).isDone = false) →
          ∃ e tr, UpdateCloudflareDNSRecord lib Do zoneID recordID apiToken record
              = some (some e, tr) ∧ attempts tr = 6))
    ∧ (∃ res tr, UpdateCloudflareDNSRecord lib Do zoneID recordID apiToken record
          = some (res, tr) ∧ attempts tr ≤ 6) := by
  refine ⟨?_, ?_, ?_, ?_, update_attempts_le lib Do zoneID recordID apiToken record⟩
  · intro k ipResp hk hf hv
    have hd : getIPAttempt url (get k) = .done (ipResp.IP, none) := by
      rw [hv]; simp [getIPAttempt, StatusOK]
    exact ⟨_, getIP_first_done get url k _ hk hf hd, attempts_first_done (.httpGet url) rfl k⟩
  · intro hf
    exact ⟨_, _, getIP_all_fail get url hf, attempts_failTrace (.httpGet url) rfl 0 6⟩
  · rcases getIP_cases get url with ⟨k, v, hk, _, _, h⟩ | ⟨_, h⟩
    · refine ⟨_, _, h, ?_⟩
      rw [attempts_first_done (.httpGet url) rfl k]
      have : maxRetries = 5 := rfl
      omega
    · exact ⟨_, _, h, le_of_eq (attempts_failTrace (.httpGet url) rfl 0 6)⟩
  · intro payload req hm hr
    refine ⟨?_, ?_⟩
    · intro k hk hf hv
      obtain ⟨v, hv⟩ := (Attempt.isDone_iff _).mp hv
      have hv0 : v = none := updateAttempt_done lib _ v hv
      subst hv0
      exact ⟨_, update_first_done lib Do zoneID recordID apiToken record payload req k none
        hm hr hk hf hv, attempts_first_done (.clientDo (setHeaders req apiToken)) rfl k⟩
    · intro hf
      exact ⟨_, _, update_all_fail lib Do zoneID recordID apiToken record payload req hm hr hf,
        attempts_failTrace (.clientDo (setHeaders req apiToken)) rfl 0 6⟩

/-- Scenario 1: the lookup answers 200 with `ip` 203.0.113.7 on the first attempt; `getIP`
returns that address after exactly one call. Likewise an update answered with `success` true
on the first attempt returns a nil error after one call. -/
theorem retry_stops_at_first_success_witness :
    (∃ tr, getIP (fun _ => .resp 200 (.ok ⟨"203.0.113.7"⟩)) "https://api.ipify.org/?format=json"
        = some (("203.0.113.7", none), tr) ∧ attempts tr = 0 + 1)
    ∧ (∃ tr, UpdateCloudflareDNSRecord sampleLib
        (fun _ _ => .resp 200 (.ok (.ok { Success := true, Errors := [], Result := none })))
        "z" "r" "t" sampleRecord = some (none, tr) ∧ attempts tr = 0 + 1) :=
  let h := retry_stops_at_first_success (fun _ => .resp 200 (.ok ⟨"203.0.113.7"⟩))
    "https://api.ipify.org/?format=json" sampleLib
    (fun _ _ => .resp 200 (.ok (.ok { Success := true, Errors := [], Result := none })))
    "z" "r" "t" sampleRecord
  ⟨h.1 0 ⟨"203.0.113.7"⟩ (by decide) (fun j hj => absurd hj (Nat.not_lt_zero j)) rfl,
    (h.2.2.2.1 "A home.example.org 203.0.113.7" sampleRequest rfl rfl).1 0 (by decide)
      (fun j hj => absurd hj (Nat.not_lt_zero j)) rfl⟩

/-! ## C2: the backoff schedule -/

theorem skeleton_first_done (ev : Event) (h : ev.isRequest = true) (k : Nat)
    (hk : k ≤ maxRetries) :
    skeleton (failTrace ev 0 k ++ [ev])
      = ((List.range k).flatMap fun i => [ev, .sleep (5 * Second * 2 ^ i)]) ++ [ev] := by
  rw [skeleton_append, skeleton_failTrace ev h k 0 (by omega), skeleton_request ev h,
    List.range_eq_range']
  rfl

theorem sleeps_first_done (ev : Event) (h : ev.isRequest = true) (k : Nat)
    (hk : k ≤ maxRetries) :
    sleeps (failTrace ev 0 k ++ [ev]) = (List.range k).map fun i => 5 * Second * 2 ^ i := by
  rw [sleeps_append, sleeps_failTrace ev h k 0 (by omega), sleeps_request ev h,
    List.range_eq_range']
  simp [sleeps]

/-- The backoff durations stay far below the range of `time.Duration` (an `int64`), so the
product of line 73 and 131 does not overflow. -/
theorem waitTime_lt_int64 (attempt : Nat) (h : attempt < maxRetries) :
    waitTime attempt < 2 ^ 63 := by
  have h5 : attempt < 5 := h
  interval_cases attempt <;> decide

/-- C2. In both loops the sleeps are exactly one after each failed attempt of index `i < 5`,
of duration `5s * 2^i`, and none after a successful attempt or after the sixth attempt: the
attempts and sleeps of a run whose first success is at index `k ≤ 5` are `k` times (attempt,
sleep of `5s * 2^i`) and then the successful attempt; those of a run that never succeeds are
five times (attempt, sleep) and then the sixth attempt, so it sleeps 5, 10, 20, 40, 80 seconds,
155 seconds in all; a first success on the fourth attempt sleeps 5, 10, 20 seconds. The
attempts of the update are the calls of `client.Do` on the request built from the record
(`payload`, `req`). -/
theorem backoff_schedule {V : Type} (get : Nat → GetResult) (url : String)
    (lib : Lib V) (Do : Nat → Request → DoResult V)
    (zoneID recordID apiToken : String) (record : CloudflareDNSRecord) :
    (∀ k, k ≤ 5 →
        (∀ j, j < k → (getIPAttempt url (get j)).isDone = false) →
        (getIPAttempt url (get k)).isDone = true →
        ∃ res tr, getIP get url = some (res, tr)
          ∧ skeleton tr = ((List.range k).flatMap fun i =>
              [Event.httpGet url, .sleep (5 * Second * 2 ^ i)]) ++ [.httpGet url]
          ∧ sleeps tr = (List.range k).map fun i => 5 * Second * 2 ^ i)
    ∧ ((∀ j, j ≤ 5 → (getIPAttempt url (get j)).isDone = false) →
        ∃ res tr, getIP get url = some (res, tr)
          ∧ skeleton tr = ((List.range 5).flatMap fun i =>
              [Event.httpGet url, .sleep (5 * Second * 2 ^ i)]) ++ [.httpGet url]
          ∧ sleeps tr = [5 * Second, 10 * Second, 20 * Second, 40 * Second, 80 * Second]
          ∧ (sleeps tr).sum = 155 * Second)
    ∧ ((∀ j, j < 3 → (getIPAttempt url (get j)).isDone = false) →
        (getIPAttempt url (get 3)).isDone = true →
        ∃ res tr, getIP get url = some (res, tr) ∧ attempts tr = 4
          ∧ sleeps tr = [5 * Second, 10 * Second, 20 * Second])
    ∧ (∀ payload req, lib.Marshal record = .ok payload →
        lib.NewRequest "PUT" (recordURL zoneID recordID) payload = .ok req →
        (∀ k, k ≤ 5 →
          (∀ j, j < k → (updateAttempt lib (Do j (setHeaders req apiToken))).isDone = false) →
          (updateAttempt lib (Do k (setHeaders req apiToken))).isDone = true →
          ∃ res tr, UpdateCloudflareDNSRecord lib Do zoneID recordID apiToken record
              = some (res, tr)
            ∧ skeleton tr = ((List.range k).flatMap fun i =>
                [Event.clientDo (setHeaders req apiToken), .sleep (5 * Second * 2 ^ i)])
                ++ [.clientDo (setHeaders req apiToken)]
            ∧ sleeps tr = (List.range k).map fun i => 5 * Second * 2 ^ i)
        ∧ ((∀ j, j ≤ 5 →
            (updateAttempt lib (Do j (setHeaders req apiToken))).isDone = false) →
          ∃ res tr, UpdateCloudflareDNSRecord lib Do zoneID recordID apiToken record
              = some (res, tr)
            ∧ skeleton tr = ((List.range 5).flatMap fun i =>
                [Event.clientDo (setHeaders req apiToken), .sleep (5 * Second * 2 ^ i)])
                ++ [.clientDo (setHeaders req apiToken)]
            ∧ sleeps tr = [5 * Second, 10 * Second, 20 * Second, 40 * Second, 80 * Second]
            ∧ (sleeps tr).sum = 155 * Second)) := by
  refine ⟨?_, ?_, ?_, ?_⟩
  · intro k hk hf hv
    obtain ⟨v, hv⟩ := (Attempt.isDone_iff _).mp hv
    exact ⟨_, _, getIP_first_done get url k v hk hf hv,
      skeleton_first_done (.httpGet url) rfl k hk, sleeps_first_done (.httpGet url) rfl k hk⟩
  · intro hf
    refine ⟨_, _, getIP_all_fail get url hf, skeleton_failTrace_all (.httpGet url) rfl, ?_, ?_⟩
    · rw [sleeps_failTrace_all (.httpGet url) rfl]; rfl
    · rw [sleeps_failTrace_all (.httpGet url) rfl]; rfl
  · intro hf hv
    obtain ⟨v, hv⟩ := (Attempt.isDone_iff _).mp hv
    refine ⟨_, _, getIP_first_done get url 3 v (by decide) hf hv,
      attempts_first_done (.httpGet url) rfl 3, ?_⟩
    rw [sleeps_first_done (.httpGet url) rfl 3 (by decide)]; rfl
  · intro payload req hm hr
    refine ⟨?_, ?_⟩
    · intro k hk hf hv
      obtain ⟨v, hv⟩ := (Attempt.isDone_iff _).mp hv
      exact ⟨_, _, update_first_done lib Do zoneID recordID apiToken record payload req k v
        hm hr hk hf hv, skeleton_first_done (.clientDo (setHeaders req apiToken)) rfl k hk,
        sleeps_first_done (.clientDo (setHeaders req apiToken)) rfl k hk⟩
    · intro hf
      refine ⟨_, _, update_all_fail lib Do zoneID recordID apiToken record payload req hm hr hf,
        skeleton_failTrace_all (.clientDo (setHeaders req apiToken)) rfl, ?_, ?_⟩
      · rw [sleeps_failTrace_all (.clientDo (setHeaders req apiToken)) rfl]; rfl
      · rw [sleeps_failTrace_all (.clientDo (setHeaders req apiToken)) rfl]; rfl

/-- Scenario 2: 503 on attempts 1 to 3, then 200 on attempt 4: `getIP` returns after 4 calls
and 3 sleeps of 5, 10 and 20 seconds. -/
theorem backoff_schedule_witness :
    ∃ res tr, getIP scenario2 "https://api.ipify.org/?format=json" = some (res, tr)
      ∧ attempts tr = 4 ∧ sleeps tr = [5 * Second, 10 * Second, 20 * Second] :=
  (backoff_schedule scenario2 "https://api.ipify.org/?format=json" sampleLib
    (fun _ _ => .resp 200 (.ok (.ok { Success := true, Errors := [], Result := none })))
    "z" "r" "t" sampleRecord).2.2.1
    (by intro j hj; interval_cases j <;> rfl) rfl

/-! ## C3: the failure after six failed attempts -/

theorem getIP_final_text (url : String) :
    "failed to fetch IP from " ++ url ++ " after " ++ toString maxRetries ++ " retries: "
      = "failed to fetch IP from " ++ url ++ " after 5 retries: " := by
  have h : toString maxRetries = "5" := rfl
  rw [h, String.append_assoc _ " after " "5", String.append_assoc _ (" after " ++ "5") " retries: "]
  rfl

theorem update_final_text :
    "failed to update DNS record after " ++ toString maxRetries ++ " retries: "
      = "failed to update DNS record after 5 retries: " := rfl

theorem Attempt.err_of_not_done {α : Type} (x : Attempt α) (h : x.isDone = false) :
    ∃ e, x = .retry e ∧ x.err = some e := by
  cases x with
  | retry e => exact ⟨e, rfl, rfl⟩
  | done v => cases h

/-- C3. After six failed attempts `getIP` and `UpdateCloudflareDNSRecord` return an error that
wraps the error of the sixth attempt (index 5), whose text names the operation (for `getIP`
with the URL) and the count of retries: `failed to fetch IP from <url> after 5 retries: <last
error>` and `failed to update DNS record after 5 retries: <last error>`, after 6 attempts in
all; so for an update whose every attempt is a transport error the message states `after 5
retries` after 6 attempts and wraps the sixth transport error. The attempts of the update are
the calls of `client.Do` on the request built from the record (`payload`, `req`). -/
theorem exhausted_failure_wraps_last_error {V : Type} (get : Nat → GetResult) (url : String)
    (lib : Lib V) (Do : Nat → Request → DoResult V)
    (zoneID recordID apiToken : String) (record : CloudflareDNSRecord) :
    ((∀ j, j ≤ 5 → (getIPAttempt url (get j)).isDone = false) →
        ∃ last tr, getIPAttempt url (get 5) = .retry last
          ∧ getIP get url = some (("", some (.wrapError
              ("failed to fetch IP from " ++ url ++ " after 5 retries: " ++ last.Error) last)), tr)
          ∧ attempts tr = 6)
    ∧ (∀ payload req, lib.Marshal record = .ok payload →
        lib.NewRequest "PUT" (recordURL zoneID recordID) payload = .ok req →
        ((∀ j, j ≤ 5 → (updateAttempt lib (Do j (setHeaders req apiToken))).isDone = false) →
          ∃ last tr, updateAttempt lib (Do 5 (setHeaders req apiToken)) = .retry last
            ∧ UpdateCloudflareDNSRecord lib Do zoneID recordID apiToken record
              = some (some (.wrapError
                  ("failed to update DNS record after 5 retries: " ++ last.Error) last), tr)
            ∧ attempts tr = 6)
        ∧ (∀ errs : Nat → GoError,
          (∀ j, j ≤ 5 → Do j (setHeaders req apiToken) = .err (errs j)) →
          ∃ tr, UpdateCloudflareDNSRecord lib Do zoneID recordID apiToken record
              = some (some (.wrapError
                  ("failed to update DNS record after 5 retries: " ++ (errs 5).Error)
                  (errs 5)), tr)
            ∧ attempts tr = 6)) := by
  refine ⟨?_, ?_⟩
  · intro hf
    obtain ⟨e, he, he2⟩ := Attempt.err_of_not_done _ (hf 5 (le_refl 5))
    refine ⟨e, _, he, ?_, attempts_failTrace (.httpGet url) rfl 0 6⟩
    rw [getIP_all_fail get url hf, getIP_final_text]
    have : (getIPAttempt url (get maxRetries)).err = some e := he2
    rw [this]
    rfl
  · intro payload req hm hr
    refine ⟨?_, ?_⟩
    · intro hf
      obtain ⟨e, he, he2⟩ := Attempt.err_of_not_done _ (hf 5 (le_refl 5))
      refine ⟨e, _, he, ?_, attempts_failTrace (.clientDo (setHeaders req apiToken)) rfl 0 6⟩
      rw [update_all_fail lib Do zoneID recordID apiToken record payload req hm hr hf,
        update_final_text]
      have : (updateAttempt lib (Do maxRetries (setHeaders req apiToken))).err = some e := he2
      rw [this]
      rfl
    · intro errs herr
      have hf : ∀ j, j ≤ maxRetries →
          (updateAttempt lib (Do j (setHeaders req apiToken))).isDone = false := by
        intro j hj
        rw [herr j hj]
        rfl
      refine ⟨_, ?_, attempts_failTrace (.clientDo (setHeaders req apiToken)) rfl 0 6⟩
      rw [update_all_fail lib Do zoneID recordID apiToken record payload req hm hr hf,
        update_final_text]
      have : (updateAttempt lib (Do maxRetries (setHeaders req apiToken))).err
          = some (errs 5) := by
        rw [herr maxRetries (le_refl _)]
        rfl
      rw [this]
      rfl

/-- Scenario 3: every call of the update is a transport error; after 6 attempts the update
fails with a message stating `after 5 retries`. -/
theorem exhausted_failure_wraps_last_error_witness :
    ∃ tr, UpdateCloudflareDNSRecord sampleLib
        (fun _ _ => .err (.errorString "dial tcp: connection refused"))
        "z" "r" "t" sampleRecord
      = some (some (.wrapError
          ("failed to update DNS record after 5 retries: " ++ "dial tcp: connection refused")
          (.errorString "dial tcp: connection refused")), tr)
      ∧ attempts tr = 6 :=
  ((exhausted_failure_wraps_last_error (fun _ => .err (.errorString "no route to host"))
    "https://api.ipify.org/?format=json" sampleLib
    (fun _ _ => .err (.errorString "dial tcp: connection refused"))
    "z" "r" "t" sampleRecord).2 "A home.example.org 203.0.113.7" sampleRequest rfl rfl).2
    (fun _ => .errorString "dial tcp: connection refused") (fun _ _ => rfl)

/-! ## C4: the success criterion of the update -/

theorem updateAttempt_isDone_iff {V : Type} (lib : Lib V) (r : DoResult V) :
    (updateAttempt lib r).isDone = true
      ↔ ∃ status cfResp, r = .resp status (.ok (.ok cfResp)) ∧ cfResp.Success = true := by
  constructor
  · intro h
    cases r with
    | err e => cases h
    | resp status body =>
      cases body with
      | error e => cases h
      | ok b =>
        cases b with
        | error e => cases h
        | ok cfResp =>
          refine ⟨status, cfResp, rfl, ?_⟩
          cases hs : cfResp.Success
          · simp [updateAttempt, hs, Attempt.isDone] at h
          · rfl
  · rintro ⟨status, cfResp, rfl, hs⟩
    simp [updateAttempt, hs, Attempt.isDone]

/-- C4. One attempt of `UpdateCloudflareDNSRecord` is a success exactly when `client.Do`
returns a response, its body is read, it decodes and its `success` field is true, and then
the attempt returns a nil error; a transport error, a body-read error, a decode error and
`success == false` are failed attempts, and a failed attempt of index `k < 5` is followed by
another attempt. So the operation returns a nil error exactly when one of the first six
attempts meets the criterion. The attempts are those of a request that could be built
(`hm`, `hr`). -/
theorem update_success_criterion {V : Type} (lib : Lib V) (Do : Nat → Request → DoResult V)
    (zoneID recordID apiToken : String) (record : CloudflareDNSRecord)
    (payload : String) (req : Request)
    (hm : lib.Marshal record = .ok payload)
    (hr : lib.NewRequest "PUT" (recordURL zoneID recordID) payload = .ok req) :
    (∀ r : DoResult V, (updateAttempt lib r).isDone = true
        ↔ ∃ status cfResp, r = .resp status (.ok (.ok cfResp)) ∧ cfResp.Success = true)
    ∧ (∀ r : DoResult V, (updateAttempt lib r).isDone = true → updateAttempt lib r = .done none)
    ∧ (∀ e, (updateAttempt lib (.err e)).isDone = false)
    ∧ (∀ status e, (updateAttempt lib (.resp status (.error e))).isDone = false)
    ∧ (∀ status e, (updateAttempt lib (.resp status (.ok (.error e)))).isDone = false)
    ∧ (∀ status cfResp, cfResp.Success = false →
        (updateAttempt lib (.resp status (.ok (.ok cfResp)))).isDone = false)
    ∧ (∃ res tr, UpdateCloudflareDNSRecord lib Do zoneID recordID apiToken record
          = some (res, tr)
        ∧ (res = none ↔ ∃ k, k ≤ 5 ∧ ∃ status cfResp,
            Do k (setHeaders req apiToken) = .resp status (.ok (.ok cfResp))
              ∧ cfResp.Success = true)
        ∧ (∀ k, k < 5 →
            (∀ j, j ≤ k → (updateAttempt lib (Do j (setHeaders req apiToken))).isDone = false) →
            k + 2 ≤ attempts tr)) := by
  refine ⟨updateAttempt_isDone_iff lib, ?_, fun _ => rfl, fun _ _ => rfl, fun _ _ => rfl, ?_, ?_⟩
  · intro r h
    obtain ⟨v, hv⟩ := (Attempt.isDone_iff _).mp h
    rw [hv, updateAttempt_done lib r v hv]
  · intro status cfResp hs
    simp [updateAttempt, hs, Attempt.isDone]
  · rcases update_cases lib Do zoneID recordID apiToken record payload req hm hr
      with ⟨k, hk, hf, hv, h⟩ | ⟨hf, h⟩
    · refine ⟨_, _, h, ?_, ?_⟩
      · constructor
        · intro _
          have hd : (updateAttempt lib (Do k (setHeaders req apiToken))).isDone = true := by
            rw [hv]; rfl
          exact ⟨k, hk, (updateAttempt_isDone_iff lib _).mp hd⟩
        · intro _; rfl
      · intro m _ hfm
        rw [attempts_first_done (.clientDo (setHeaders req apiToken)) rfl k]
        have hkm : m < k := by
          by_contra hcon
          have h1 := hfm k (by omega)
          rw [hv] at h1
          cases h1
        omega
    · refine ⟨_, _, h, ?_, ?_⟩
      · constructor
        · intro hn; cases hn
        · rintro ⟨k, hk, hex⟩
          have h1 := hf k hk
          rw [(updateAttempt_isDone_iff lib _).mpr hex] at h1
          cases h1
      · intro m hm5 _
        rw [attempts_failTrace (.clientDo (setHeaders req apiToken)) rfl 0 (maxRetries + 1)]
        have : maxRetries = 5 := rfl
        omega

/-- A provider answer `success: true` on the first attempt: the update returns a nil error
after one call. -/
theorem update_success_criterion_witness :
    (updateAttempt sampleLib
        (.resp 200 (.ok (.ok { Success := true, Errors := [], Result := none })))).isDone = true
      ∧ ∃ res tr, UpdateCloudflareDNSRecord sampleLib
          (fun _ _ => .resp 200 (.ok (.ok { Success := true, Errors := [], Result := none })))
          "z" "r" "t" sampleRecord = some (res, tr) :=
  let h := update_success_criterion sampleLib
    (fun _ _ => .resp 200 (.ok (.ok { Success := true, Errors := [], Result := none })))
    "z" "r" "t" sampleRecord "A home.example.org 203.0.113.7" sampleRequest rfl rfl
  ⟨(h.1 _).mpr ⟨200, _, rfl, rfl⟩,
    let ⟨res, tr, hres, _⟩ := h.2.2.2.2.2.2
    ⟨res, tr, hres⟩⟩

/-! ## C5: the response status -/

theorem getIPAttempt_done (url : String) (r : GetResult) (v : String × Option GoError)
    (h : getIPAttempt url r = .done v) :
    ∃ ipResp, r = .resp 200 (.ok ipResp) ∧ v = (ipResp.IP, none) := by
  cases r with
  | err e => cases h
  | resp status decode =>
    by_cases hs : status = StatusOK
    · subst hs
      cases decode with
      | error e => simp [getIPAttempt] at h
      | ok ipResp =>
        simp only [getIPAttempt, ne_eq, not_true_eq_false, if_false] at h
        cases h
        exact ⟨ipResp, rfl, rfl⟩
    · simp [getIPAttempt, hs] at h

/-- The trace of `getIP` depends on the results of the attempts only through which of them
succeed: all kinds of failure are retried alike. -/
theorem getIP_trace_congr (get get2 : Nat → GetResult) (url : String)
    (h : ∀ j, j ≤ maxRetries →
      (getIPAttempt url (get j)).isDone = (getIPAttempt url (get2 j)).isDone) :
    (getIP get url).map Prod.snd = (getIP get2 url).map Prod.snd := by
  rcases getIP_cases get url with ⟨k, v, hk, hf, hv, hg⟩ | ⟨hf, hg⟩ <;>
    rcases getIP_cases get2 url with ⟨k2, v2, hk2, hf2, hv2, hg2⟩ | ⟨hf2, hg2⟩
  · have hd : (getIPAttempt url (get k)).isDone = true := by rw [hv]; rfl
    have hd2 : (getIPAttempt url (get2 k2)).isDone = true := by rw [hv2]; rfl
    have hkk : k = k2 := by
      rcases Nat.lt_trichotomy k k2 with hlt | heq | hgt
      · have := hf2 k hlt
        rw [← h k hk, hd] at this
        cases this
      · exact heq
      · have := hf k2 hgt
        rw [h k2 hk2, hd2] at this
        cases this
    subst hkk
    rw [hg, hg2]
    rfl
  · have hd : (getIPAttempt url (get k)).isDone = true := by rw [hv]; rfl
    have := hf2 k hk
    rw [← h k hk, hd] at this
    cases this
  · have hd2 : (getIPAttempt url (get2 k2)).isDone = true := by rw [hv2]; rfl
    have := hf k2 hk2
    rw [h k2 hk2, hd2] at this
    cases this
  · rw [hg, hg2]
    rfl

/-- C5, as the code has it. In `getIP` an attempt whose response status is not 200 (so every
status that is not a 2xx status) is a failed attempt whatever the body decodes to, and it is
retried like a transport error: the trace of the loop is the same when the result of a failed
attempt is replaced by any other failing result. `UpdateCloudflareDNSRecord` does not read the
status: the outcome of an attempt is the same for every status code, and a response of any
status whose body decodes with `success` true ends the update with a nil error. -/
theorem status_checked_only_by_getIP {V : Type} (lib : Lib V) (url : String) (status : Int)
    (hs : status ≠ 200) :
    (∀ decode, getIPAttempt url (.resp status decode)
        = .retry (.errorString ("unexpected status code " ++ toString status ++ " from " ++ url)))
    ∧ (∀ (get : Nat → GetResult) (i : Nat) (decode : Except GoError IPResponse) (e : GoError),
        get i = .resp status decode →
        (getIP get url).map Prod.snd
          = (getIP (fun j => if j = i then .err e else get j) url).map Prod.snd)
    ∧ (∀ body, updateAttempt lib (.resp status body) = updateAttempt lib (.resp 200 body))
    ∧ (∀ cfResp : CloudflareResponse V, cfResp.Success = true →
        updateAttempt lib (.resp status (.ok (.ok cfResp))) = .done none) := by
  refine ⟨?_, ?_, fun _ => rfl, ?_⟩
  · intro decode
    have : status ≠ StatusOK := hs
    simp [getIPAttempt, this]
  · intro get i decode e hi
    apply getIP_trace_congr
    intro j _
    by_cases hj : j = i
    · subst hj
      have : status ≠ StatusOK := hs
      simp [hi, getIPAttempt, this, Attempt.isDone]
    · simp [hj]
  · intro cfResp hsucc
    simp [updateAttempt, hsucc]

/-- A 503 answer to the lookup is a failed attempt, whatever its body decodes to. -/
theorem status_checked_only_by_getIP_witness :
    getIPAttempt "https://api.ipify.org/?format=json" (.resp 503 (.ok ⟨"203.0.113.7"⟩))
      = .retry (.errorString ("unexpected status code " ++ toString (503 : Int) ++ " from "
          ++ "https://api.ipify.org/?format=json")) :=
  (status_checked_only_by_getIP sampleLib "https://api.ipify.org/?format=json" 503
    (by decide)).1 (.ok ⟨"203.0.113.7"⟩)

/-- C5 as stated fails: every call of the update is answered with status 500 and a body that
decodes with `success` true, and the update succeeds on the first attempt. -/
theorem update_succeeds_on_status_500 :
    UpdateCloudflareDNSRecord sampleLib
        (fun _ _ => .resp 500 (.ok (.ok { Success := true, Errors := [], Result := none })))
        "z" "r" "t" sampleRecord
      = some (none, [.clientDo (setHeaders sampleRequest "t")]) := by
  decide

/-! ## C6: the address returned by getIP -/

/-- C6, as the code has it. On success `getIP` (and so `GetPublicIPv4` and `GetPublicIPv6`)
returns exactly the `ip` field decoded from the 200 response of the last attempt, unchanged;
the string is not checked and is empty when the decoded field is empty. -/
theorem getIP_returns_decoded_ip (get : Nat → GetResult) (url ip : String) (tr : List Event)
    (h : getIP get url = some ((ip, none), tr)) :
    (∃ k ipResp, k ≤ 5 ∧ get k = .resp 200 (.ok ipResp) ∧ ip = ipResp.IP
        ∧ attempts tr = k + 1
        ∧ ∀ j, j < k → (getIPAttempt url (get j)).isDone = false)
    ∧ (∀ ipResp, getIPAttempt url (.resp 200 (.ok ipResp)) = .done (ipResp.IP, none))
    ∧ (∀ get4, GetPublicIPv4 get4 = getIP get4 "https://api.ipify.org/?format=json")
    ∧ (∀ get6, GetPublicIPv6 get6 = getIP get6 "https://api64.ipify.org/?format=json") := by
  refine ⟨?_, fun _ => rfl, fun _ => rfl, fun _ => rfl⟩
  rcases getIP_cases get url with ⟨k, v, hk, hf, hv, hg⟩ | ⟨_, hg⟩
  · rw [hg] at h
    obtain ⟨ipResp, hr, hvr⟩ := getIPAttempt_done url (get k) v hv
    injection h with h
    injection h with h1 h2
    subst hvr
    injection h1 with h3 _
    refine ⟨k, ipResp, hk, hr, h3.symm, ?_, hf⟩
    rw [← h2]
    exact attempts_first_done (.httpGet url) rfl k
  · rw [hg] at h
    injection h with h
    injection h with h1 _
    injection h1 with _ h4
    cases h4

/-- Scenario 1 read backwards: the address returned is the decoded `ip` field. -/
theorem getIP_returns_decoded_ip_witness :
    ∃ k ipResp, k ≤ 5
      ∧ (fun (_ : Nat) => GetResult.resp 200 (.ok ⟨"203.0.113.7"⟩)) k = .resp 200 (.ok ipResp)
      ∧ "203.0.113.7" = ipResp.IP :=
  let ⟨k, ipResp, hk, hr, hip, _⟩ := (getIP_returns_decoded_ip
    (fun _ => .resp 200 (.ok ⟨"203.0.113.7"⟩)) "https://api.ipify.org/?format=json"
    "203.0.113.7" [.httpGet "https://api.ipify.org/?format=json"] rfl).1
  ⟨k, ipResp, hk, hr, hip⟩

/-- C6 as stated fails: a 200 response whose body decodes with an empty `ip` field (as the
bodies with no `ip` key or an empty one do) makes `GetPublicIPv4` succeed with the empty
string. -/
theorem getIP_returns_empty_address :
    GetPublicIPv4 (fun _ => .resp 200 (.ok ⟨""⟩))
      = some (("", none), [.httpGet "https://api.ipify.org/?format=json"]) := by
  decide

/-! ## C7: the message of a provider rejection -/

theorem Contains.of_prefix (a sub : String) : Contains (a ++ sub) sub :=
  ⟨a, "", by simp⟩

theorem Contains.append_left (a s sub : String) (h : Contains s sub) : Contains (a ++ s) sub := by
  obtain ⟨x, y, hxy⟩ := h
  exact ⟨a ++ x, y, by rw [hxy]; simp [String.append_assoc]⟩

/-- C7. When each of the six attempts of `UpdateCloudflareDNSRecord` is answered with a
response that decodes with `success` false, the update fails after 6 attempts and the message
of the failure is `failed to update DNS record after 5 retries: cloudflare API error: `
followed by the `%v` print of the error list of the last response when that list is not
empty, and by `unknown error` when it is empty or absent; so the message contains the printed
error list (and every text the print contains), or the placeholder. The attempts are those of
a request that could be built (`hm`, `hr`). -/
theorem provider_rejection_message {V : Type} (lib : Lib V) (Do : Nat → Request → DoResult V)
    (zoneID recordID apiToken : String) (record : CloudflareDNSRecord)
    (payload : String) (req : Request) (status : Nat → Int) (cf : Nat → CloudflareResponse V)
    (hm : lib.Marshal record = .ok payload)
    (hr : lib.NewRequest "PUT" (recordURL zoneID recordID) payload = .ok req)
    (hrej : ∀ j, j ≤ 5 → Do j (setHeaders req apiToken) = .resp (status j) (.ok (.ok (cf j)))
      ∧ (cf j).Success = false) :
    ∃ e tr, UpdateCloudflareDNSRecord lib Do zoneID recordID apiToken record = some (some e, tr)
      ∧ attempts tr = 6
      ∧ e.Error = "failed to update DNS record after 5 retries: " ++ ("cloudflare API error: "
          ++ if (cf 5).Errors.length > 0 then lib.SprintV (cf 5).Errors else "unknown error")
      ∧ ((cf 5).Errors ≠ [] → Contains e.Error (lib.SprintV (cf 5).Errors))
      ∧ ((cf 5).Errors ≠ [] → ∀ text, Contains (lib.SprintV (cf 5).Errors) text →
          Contains e.Error text)
      ∧ ((cf 5).Errors = [] → Contains e.Error "unknown error") := by
  have hatt : ∀ j, j ≤ 5 → updateAttempt lib (Do j (setHeaders req apiToken))
      = .retry (.errorString ("cloudflare API error: "
          ++ if (cf j).Errors.length > 0 then lib.SprintV (cf j).Errors else "unknown error")) := by
    intro j hj
    obtain ⟨h1, h2⟩ := hrej j hj
    rw [h1]
    simp [updateAttempt, h2]
  have hf : ∀ j, j ≤ maxRetries →
      (updateAttempt lib (Do j (setHeaders req apiToken))).isDone = false := by
    intro j hj
    rw [hatt j hj]
    rfl
  have herr : (updateAttempt lib (Do maxRetries (setHeaders req apiToken))).err
      = some (.errorString ("cloudflare API error: "
          ++ if (cf 5).Errors.length > 0 then lib.SprintV (cf 5).Errors else "unknown error")) := by
    rw [hatt maxRetries (le_refl _)]
    rfl
  refine ⟨_, _, update_all_fail lib Do zoneID recordID apiToken record payload req hm hr hf,
    attempts_failTrace (.clientDo (setHeaders req apiToken)) rfl 0 6, ?_, ?_, ?_, ?_⟩
  · rw [herr, update_final_text]
    rfl
  · intro hne
    rw [herr, update_final_text]
    have hlen : (cf 5).Errors.length > 0 := List.length_pos.mpr hne
    simp only [Errorf_w, GoError.Error, if_pos hlen]
    exact Contains.append_left _ _ _ (Contains.of_prefix _ _)
  · intro hne text htext
    rw [herr, update_final_text]
    have hlen : (cf 5).Errors.length > 0 := List.length_pos.mpr hne
    simp only [Errorf_w, GoError.Error, if_pos hlen]
    exact Contains.append_left _ _ _ (Contains.append_left _ _ _ htext)
  · intro hnil
    rw [herr, update_final_text]
    simp only [Errorf_w, GoError.Error, hnil, List.length_nil, gt_iff_lt, lt_self_iff_false,
      if_false]
    exact Contains.append_left _ _ _ (Contains.of_prefix _ _)

/-- Scenario 4: every call of the update is answered with `success` false and the error list
`["invalid content"]`; the message of the final failure contains `invalid content`. -/
theorem provider_rejection_message_witness :
    ∃ e tr, UpdateCloudflareDNSRecord sampleLib
        (fun _ _ => .resp 400 (.ok (.ok
          { Success := false, Errors := ["invalid content"], Result := none })))
        "z" "r" "t" sampleRecord = some (some e, tr)
      ∧ e.Error = "failed to update DNS record after 5 retries: cloudflare API error: "
          ++ "[invalid content]"
      ∧ Contains e.Error "invalid content" :=
  let ⟨e, tr, h, _, herr, _, htext, _⟩ := provider_rejection_message sampleLib
    (fun _ _ => .resp 400 (.ok (.ok
      { Success := false, Errors := ["invalid content"], Result := none })))
    "z" "r" "t" sampleRecord "A home.example.org 203.0.113.7" sampleRequest (fun _ => 400)
    (fun _ => { Success := false, Errors := ["invalid content"], Result := none }) rfl rfl
    (fun _ _ => ⟨rfl, rfl⟩)
  ⟨e, tr, h, herr, htext (by decide) "invalid content" ⟨"[", "]", rfl⟩⟩

/-! ## C8: failures that are not retried -/

theorem getIPAttempt_done_nil (url : String) (r : GetResult) (v : String × Option GoError)
    (h : getIPAttempt url r = .done v) : v.2 = none := by
  obtain ⟨ipResp, _, hv⟩ := getIPAttempt_done url r v h
  rw [hv]

/-- C8, as the code has it. Every failure of an attempt itself (in `getIP` a transport error,
a status other than 200 or a decode error; in `UpdateCloudflareDNSRecord` a transport error,
a body-read error, a decode error or `success == false`) at an index below 5 is followed by
the backoff sleep and another attempt, so `getIP` never returns a failure before 6 attempts,
and neither does the update once the request could be built. A failure of `json.Marshal` or
of `http.NewRequest` is not retried: the update returns it at once, wrapped, with no attempt
and no sleep. -/
theorem attempt_failures_are_retried {V : Type} (get : Nat → GetResult) (url : String)
    (lib : Lib V) (Do : Nat → Request → DoResult V)
    (zoneID recordID apiToken : String) (record : CloudflareDNSRecord) :
    (∀ res e tr, getIP get url = some ((res, some e), tr) →
        attempts tr = 6
          ∧ sleeps tr = [5 * Second, 10 * Second, 20 * Second, 40 * Second, 80 * Second])
    ∧ (∀ payload req e tr, lib.Marshal record = .ok payload →
        lib.NewRequest "PUT" (recordURL zoneID recordID) payload = .ok req →
        UpdateCloudflareDNSRecord lib Do zoneID recordID apiToken record = some (some e, tr) →
        attempts tr = 6
          ∧ sleeps tr = [5 * Second, 10 * Second, 20 * Second, 40 * Second, 80 * Second])
    ∧ (∀ err, lib.Marshal record = .error err →
        UpdateCloudflareDNSRecord lib Do zoneID recordID apiToken record
          = some (some (.wrapError ("failed to marshal DNS record: " ++ err.Error) err), []))
    ∧ (∀ payload err, lib.Marshal record = .ok payload →
        lib.NewRequest "PUT" (recordURL zoneID recordID) payload = .error err →
        UpdateCloudflareDNSRecord lib Do zoneID recordID apiToken record
          = some (some (.wrapError ("failed to create request: " ++ err.Error) err), [])) := by
  refine ⟨?_, ?_, ?_, ?_⟩
  · intro res e tr h
    rcases getIP_cases get url with ⟨k, v, _, _, hv, hg⟩ | ⟨_, hg⟩
    · rw [hg] at h
      have hn := getIPAttempt_done_nil url _ v hv
      injection h with h
      injection h with h1 _
      rw [h1] at hn
      cases hn
    · rw [hg] at h
      injection h with h
      injection h with _ h2
      rw [← h2]
      refine ⟨attempts_failTrace (.httpGet url) rfl 0 6, ?_⟩
      rw [sleeps_failTrace_all (.httpGet url) rfl]
      rfl
  · intro payload req e tr hm hr h
    rcases update_cases lib Do zoneID recordID apiToken record payload req hm hr
      with ⟨k, _, _, _, hg⟩ | ⟨_, hg⟩
    · rw [hg] at h
      injection h with h
      injection h with h1 _
      cases h1
    · rw [hg] at h
      injection h with h
      injection h with _ h2
      rw [← h2]
      refine ⟨attempts_failTrace (.clientDo (setHeaders req apiToken)) rfl 0 6, ?_⟩
      rw [sleeps_failTrace_all (.clientDo (setHeaders req apiToken)) rfl]
      rfl
  · intro err hm
    exact updateLoop_marshal_error lib Do _ apiToken record maxRetries 0 none [] err
      (Nat.zero_le _) hm
  · intro payload err hm hr
    exact updateLoop_request_error lib Do _ apiToken record maxRetries 0 none [] payload err
      (Nat.zero_le _) hm hr

/-- A lookup that is refused six times fails after 6 attempts and the five sleeps. -/
theorem attempt_failures_are_retried_witness :
    ∃ e tr, getIP (fun _ => .err (.errorString "connection refused"))
        "https://api.ipify.org/?format=json" = some (("", some e), tr)
      ∧ attempts tr = 6
      ∧ sleeps tr = [5 * Second, 10 * Second, 20 * Second, 40 * Second, 80 * Second] :=
  ⟨.wrapError ("failed to fetch IP from https://api.ipify.org/?format=json after 5 retries: "
      ++ "connection refused") (.errorString "connection refused"),
    failTrace (.httpGet "https://api.ipify.org/?format=json") 0 6, by decide,
    (attempt_failures_are_retried (fun _ => .err (.errorString "connection refused"))
      "https://api.ipify.org/?format=json" sampleLib
      (fun _ _ => .err (.errorString "connection refused")) "z" "r" "t" sampleRecord).1
      "" (.wrapError
        ("failed to fetch IP from https://api.ipify.org/?format=json after 5 retries: "
          ++ "connection refused") (.errorString "connection refused"))
      (failTrace (.httpGet "https://api.ipify.org/?format=json") 0 6) (by decide)⟩

/-- C8 as stated fails: for the zone id `%zz` the request cannot be built, and the update
returns the failure in its first iteration, with no attempt and no sleep, although every call
would have been answered with `success` true. -/
theorem request_build_failure_is_not_retried :
    UpdateCloudflareDNSRecord sampleLib
        (fun _ _ => .resp 200 (.ok (.ok { Success := true, Errors := [], Result := none })))
        "%zz" "r" "t" sampleRecord
      = some (some (.wrapError
          ("failed to create request: " ++ ("parse \""
            ++ "https://api.cloudflare.com/client/v4/zones/%zz/dns_records/r"
            ++ "\": invalid URL escape \"%zz\""))
          (.errorString ("parse \""
            ++ "https://api.cloudflare.com/client/v4/zones/%zz/dns_records/r"
            ++ "\": invalid URL escape \"%zz\""))), []) := by
  decide

/-! ## C9 and C10: main -/

/-- The run after `flag.Parse()` has returned: when a required value is empty, `main` exits
with code 1 and performs no network operation. -/
theorem main_missing_required {V : Type} (w : World V)
    (h : w.flags.zoneID = "" ∨ w.flags.recordIDv4 = "" ∨ w.flags.recordIDv6 = ""
      ∨ w.flags.recordName = ""
      ∨ (if w.flags.apiToken = "" then w.CF_API_TOKEN else w.flags.apiToken) = "") :
    ∃ r, main w = some r ∧ r.exitCode = 1 ∧ r.calls = [] ∧ attempts r.trace = 0
      ∧ sleeps r.trace = [] ∧ skeleton r.trace = [] := by
  have hmiss : missingRequired w = true := by
    simp only [missingRequired, resolvedToken, Bool.or_eq_true, decide_eq_true_eq]
    tauto
  rw [main, if_pos hmiss]
  exact ⟨_, rfl, rfl, rfl, rfl, rfl, rfl⟩

/-- A call of `parseOne` that sees a flag consumes at least one argument. -/
theorem parseOne_seen_length (F : FlagLib) (args args2 : List String) (flags flags2 : Flags)
    (h : parseOne F args flags = .seen args2 flags2) : args2.length < args.length := by
  unfold parseOne at h
  split at h
  · cases h
  · split at h
    · cases h
    · cases h
    · cases h
    · split at h
      · split at h <;> cases h
      · split at h
        · split at h
          · split at h
            · cases h; simp
            · cases h
          · split at h
            · cases h; simp
            · cases h
        · split at h
          · cases h
          · split at h
            · cases h; simp; omega
            · cases h
          · split at h
            · cases h; simp
            · cases h

theorem parseLoop_total (F : FlagLib) : ∀ (fuel : Nat) (args : List String) (flags : Flags),
    args.length < fuel → ∃ r, parseLoop F fuel args flags = some r := by
  intro fuel
  induction fuel with
  | zero => intro args _ h; omega
  | succ fuel ih =>
    intro args flags h
    rw [parseLoop]
    cases hp : parseOne F args flags with
    | seen args2 flags2 =>
      have := parseOne_seen_length F args args2 flags flags2 hp
      exact ih args2 flags2 (by omega)
    | done => exact ⟨_, rfl⟩
    | help => exact ⟨_, rfl⟩
    | failed msg fl => exact ⟨_, rfl⟩

/-- C9, as the code has it. For every command line, `flag.Parse()` ends, and when one of
zone-id, record-id-v4, record-id-v6, name or the resolved token (the `-api-token` flag, or
`CF_API_TOKEN` when the flag is empty) is empty, `main` performs no network operation: no
lookup and no update is called and the trace has no request and no sleep. Its exit code is 1
when `flag.Parse()` returns; it is 0 when `flag.Parse()` meets `-h` or `-help` and 2 when it
meets a flag that does not parse, for in these two cases `flag.Parse()` itself ends the run,
whatever the flag values are. A command line that starts with `-h` or `-help` is of the
second kind, with every required flag still empty. -/
theorem missing_parameter_no_network {V : Type} (F : FlagLib) (args : List String)
    (w : World V) :
    (∃ flags outcome, flagParse F args = some (flags, outcome)
      ∧ ((flags.zoneID = "" ∨ flags.recordIDv4 = "" ∨ flags.recordIDv6 = ""
            ∨ flags.recordName = ""
            ∨ (if flags.apiToken = "" then w.CF_API_TOKEN else flags.apiToken) = "") →
          ∃ r, mainFromArgs F args w = some r
            ∧ r.calls = [] ∧ attempts r.trace = 0 ∧ sleeps r.trace = [] ∧ skeleton r.trace = []
            ∧ (outcome = .returned → r.exitCode = 1)
            ∧ (outcome = .help → r.exitCode = 0)
            ∧ (∀ msg, outcome = .failed msg → r.exitCode = 2))
      ∧ (outcome = .help →
          mainFromArgs F args w = some ⟨0, [], usage w.Args0⟩)
      ∧ (∀ msg, outcome = .failed msg →
          mainFromArgs F args w
            = some ⟨2, [], [.stderr (msg ++ "\n")] ++ usage w.Args0⟩))
    ∧ (∀ rest, flagParse F ("-h" :: rest) = some (defaultFlags, .help)
        ∧ flagParse F ("-help" :: rest) = some (defaultFlags, .help)
        ∧ flagParse F ("--h" :: rest) = some (defaultFlags, .help)
        ∧ flagParse F ("--help" :: rest) = some (defaultFlags, .help)) := by
  refine ⟨?_, fun rest => ⟨rfl, rfl, rfl, rfl⟩⟩
  obtain ⟨⟨flags, outcome⟩, hp⟩ := parseLoop_total F (args.length + 1) args defaultFlags
    (Nat.lt_succ_self _)
  have hp2 : flagParse F args = some (flags, outcome) := hp
  refine ⟨flags, outcome, hp2, ?_, ?_, ?_⟩
  · intro h
    cases outcome with
    | returned =>
      obtain ⟨r, hr, hcode, hcalls, hatt, hsl, hsk⟩ :=
        main_missing_required { w with flags := flags } h
      refine ⟨r, ?_, hcalls, hatt, hsl, hsk, fun _ => hcode, fun hh => ?_, fun _ hh => ?_⟩
      · rw [mainFromArgs, hp2]
        exact hr
      · cases hh
      · cases hh
    | help =>
      refine ⟨{ exitCode := 0, calls := [], trace := usage w.Args0 }, ?_,
        rfl, rfl, rfl, rfl, fun hh => ?_, fun _ => rfl, fun _ hh => ?_⟩
      · rw [mainFromArgs, hp2]
      · cases hh
      · cases hh
    | failed msg =>
      refine ⟨{ exitCode := 2, calls := [],
                trace := [.stderr (msg ++ "\n")] ++ usage w.Args0 }, ?_,
        rfl, rfl, rfl, rfl, fun hh => ?_, fun hh => ?_, fun _ _ => rfl⟩
      · rw [mainFromArgs, hp2]
      · cases hh
      · cases hh
  · intro hh
    subst hh
    rw [mainFromArgs, hp2]
  · intro msg hh
    subst hh
    rw [mainFromArgs, hp2]

/-- Scenario 5: `-name` is omitted and `CF_API_TOKEN` is unset; `main` exits with code 1 and
no network call is attempted. -/
theorem missing_parameter_no_network_witness :
    ∃ r, mainFromArgs sampleFlagLib
        ["-zone-id", "z", "-record-id-v4", "r4", "-record-id-v6", "r6"] scenario5 = some r
      ∧ r.exitCode = 1 ∧ r.calls = [] ∧ attempts r.trace = 0 ∧ sleeps r.trace = [] := by
  obtain ⟨flags, outcome, hp, h, _⟩ := (missing_parameter_no_network sampleFlagLib
    ["-zone-id", "z", "-record-id-v4", "r4", "-record-id-v6", "r6"] scenario5).1
  have hp2 : flagParse sampleFlagLib
      ["-zone-id", "z", "-record-id-v4", "r4", "-record-id-v6", "r6"]
      = some ({ defaultFlags with zoneID := "z", recordIDv4 := "r4", recordIDv6 := "r6" },
          .returned) := by decide
  rw [hp2] at hp
  injection hp with hp
  injection hp with hflags hout
  subst hflags
  subst hout
  obtain ⟨r, hr, hcalls, hatt, hsl, _, hcode, _⟩ := h (Or.inr (Or.inr (Or.inr (Or.inl rfl))))
  exact ⟨r, hr, hcode rfl, hcalls, hatt, hsl⟩

/-- C9 as stated fails: on the command line `-h` every required value is empty (zone-id,
record-id-v4, record-id-v6, name, and the token with `CF_API_TOKEN` unset), and `main` exits
with code 0, not 1: `flag.Parse()` prints the usage text and ends the run. -/
theorem help_flag_exits_with_code_0 :
    flagParse sampleFlagLib ["-h"] = some (defaultFlags, .help)
      ∧ defaultFlags.zoneID = "" ∧ defaultFlags.recordIDv4 = "" ∧ defaultFlags.recordIDv6 = ""
      ∧ defaultFlags.recordName = "" ∧ defaultFlags.apiToken = "" ∧ scenario5.CF_API_TOKEN = ""
      ∧ mainFromArgs sampleFlagLib ["-h"] scenario5
        = some { exitCode := 0, calls := [],
                 trace := [.stderr "Usage of myopsida:\n", .printDefaults] } := by
  decide

theorem getIP_total (get : Nat → GetResult) (url : String) :
    ∃ ip err tr, getIP get url = some ((ip, err), tr) := by
  rcases getIP_cases get url with ⟨_, v, _, _, _, hg⟩ | ⟨_, hg⟩
  · exact ⟨v.1, v.2, _, hg⟩
  · exact ⟨_, _, _, hg⟩

theorem update_total {V : Type} (lib : Lib V) (Do : Nat → Request → DoResult V)
    (zoneID recordID apiToken : String) (record : CloudflareDNSRecord) :
    ∃ err tr, UpdateCloudflareDNSRecord lib Do zoneID recordID apiToken record
      = some (err, tr) := by
  cases hm : lib.Marshal record with
  | error err =>
    exact ⟨_, _, updateLoop_marshal_error lib Do _ apiToken record maxRetries 0 none [] err
      (Nat.zero_le _) hm⟩
  | ok payload =>
    cases hr : lib.NewRequest "PUT" (recordURL zoneID recordID) payload with
    | error err =>
      exact ⟨_, _, updateLoop_request_error lib Do _ apiToken record maxRetries 0 none []
        payload err (Nat.zero_le _) hm hr⟩
    | ok req =>
      rcases update_cases lib Do zoneID recordID apiToken record payload req hm hr
        with ⟨_, _, _, _, hg⟩ | ⟨_, hg⟩
      · exact ⟨_, _, hg⟩
      · exact ⟨_, _, hg⟩

/-- C10. For a configuration with all required parameters, `main` ends, and the network
operations it calls are a prefix of [IPv4 lookup, IPv6 lookup, update of the A record with the
IPv4 address, update of the AAAA record with the IPv6 address] that stops at the first
operation that fails, with exit code 1; the exit code is 0 only when all four succeeded. So
no update is called unless both lookups succeeded, the AAAA update is called only after the A
update succeeded, and nothing follows a failed step (a completed A update is followed only by
the AAAA update). The requests and sleeps of the run are those of the operations called, in
that order. -/
theorem main_stops_at_first_failure {V : Type} (w : World V)
    (hz : w.flags.zoneID ≠ "") (h4 : w.flags.recordIDv4 ≠ "") (h6 : w.flags.recordIDv6 ≠ "")
    (hn : w.flags.recordName ≠ "")
    (ht : (if w.flags.apiToken = "" then w.CF_API_TOKEN else w.flags.apiToken) ≠ "") :
    ∃ r, main w = some r ∧
      ((∃ ip e t4, GetPublicIPv4 w.getV4 = some ((ip, some e), t4)
          ∧ r.exitCode = 1 ∧ r.calls = [.GetPublicIPv4] ∧ skeleton r.trace = skeleton t4)
      ∨ (∃ ipv4 t4 ip e t6, GetPublicIPv4 w.getV4 = some ((ipv4, none), t4)
          ∧ GetPublicIPv6 w.getV6 = some ((ip, some e), t6)
          ∧ r.exitCode = 1 ∧ r.calls = [.GetPublicIPv4, .GetPublicIPv6]
          ∧ skeleton r.trace = skeleton t4 ++ skeleton t6)
      ∨ (∃ ipv4 t4 ipv6 t6 e tA, GetPublicIPv4 w.getV4 = some ((ipv4, none), t4)
          ∧ GetPublicIPv6 w.getV6 = some ((ipv6, none), t6)
          ∧ UpdateCloudflareDNSRecord w.lib w.doA w.flags.zoneID w.flags.recordIDv4
              (resolvedToken w) (recordA w ipv4) = some (some e, tA)
          ∧ r.exitCode = 1
          ∧ r.calls = [.GetPublicIPv4, .GetPublicIPv6,
              .UpdateCloudflareDNSRecord w.flags.zoneID w.flags.recordIDv4 (resolvedToken w)
                (recordA w ipv4)]
          ∧ skeleton r.trace = skeleton t4 ++ skeleton t6 ++ skeleton tA)
      ∨ (∃ ipv4 t4 ipv6 t6 tA e tAAAA, GetPublicIPv4 w.getV4 = some ((ipv4, none), t4)
          ∧ GetPublicIPv6 w.getV6 = some ((ipv6, none), t6)
          ∧ UpdateCloudflareDNSRecord w.lib w.doA w.flags.zoneID w.flags.recordIDv4
              (resolvedToken w) (recordA w ipv4) = some (none, tA)
          ∧ UpdateCloudflareDNSRecord w.lib w.doAAAA w.flags.zoneID w.flags.recordIDv6
              (resolvedToken w) (recordAAAA w ipv6) = some (some e, tAAAA)
          ∧ r.exitCode = 1
          ∧ r.calls = [.GetPublicIPv4, .GetPublicIPv6,
              .UpdateCloudflareDNSRecord w.flags.zoneID w.flags.recordIDv4 (resolvedToken w)
                (recordA w ipv4),
              .UpdateCloudflareDNSRecord w.flags.zoneID w.flags.recordIDv6 (resolvedToken w)
                (recordAAAA w ipv6)]
          ∧ skeleton r.trace = skeleton t4 ++ skeleton t6 ++ skeleton tA ++ skeleton tAAAA)
      ∨ (∃ ipv4 t4 ipv6 t6 tA tAAAA, GetPublicIPv4 w.getV4 = some ((ipv4, none), t4)
          ∧ GetPublicIPv6 w.getV6 = some ((ipv6, none), t6)
          ∧ UpdateCloudflareDNSRecord w.lib w.doA w.flags.zoneID w.flags.recordIDv4
              (resolvedToken w) (recordA w ipv4) = some (none, tA)
          ∧ UpdateCloudflareDNSRecord w.lib w.doAAAA w.flags.zoneID w.flags.recordIDv6
              (resolvedToken w) (recordAAAA w ipv6) = some (none, tAAAA)
          ∧ r.exitCode = 0
          ∧ r.calls = [.GetPublicIPv4, .GetPublicIPv6,
              .UpdateCloudflareDNSRecord w.flags.zoneID w.flags.recordIDv4 (resolvedToken w)
                (recordA w ipv4),
              .UpdateCloudflareDNSRecord w.flags.zoneID w.flags.recordIDv6 (resolvedToken w)
                (recordAAAA w ipv6)]
          ∧ skeleton r.trace = skeleton t4 ++ skeleton t6 ++ skeleton tA ++ skeleton tAAAA)) := by
  have hmiss : missingRequired w = false := by
    simp only [missingRequired, resolvedToken, Bool.or_eq_false_iff, decide_eq_false_iff_not]
    exact ⟨⟨⟨⟨hz, h4⟩, h6⟩, ht⟩, hn⟩
  have hmain := main.eq_1 w
  rw [hmiss] at hmain
  simp only [Bool.false_eq_true, if_false] at hmain
  obtain ⟨ipv4, e4, t4, hg4⟩ := getIP_total w.getV4 "https://api.ipify.org/?format=json"
  change GetPublicIPv4 w.getV4 = _ at hg4
  rw [hg4] at hmain
  cases e4 with
  | some e =>
    refine ⟨_, hmain, Or.inl ⟨ipv4, e, t4, hg4, rfl, rfl, ?_⟩⟩
    simp [skeleton_append, skeleton]
  | none =>
    obtain ⟨ipv6, e6, t6, hg6⟩ := getIP_total w.getV6 "https://api64.ipify.org/?format=json"
    change GetPublicIPv6 w.getV6 = _ at hg6
    simp only [hg6] at hmain
    cases e6 with
    | some e =>
      refine ⟨_, hmain, Or.inr (Or.inl ⟨ipv4, t4, ipv6, e, t6, hg4, hg6, rfl, rfl, ?_⟩)⟩
      simp [skeleton_append, skeleton]
    | none =>
      obtain ⟨eA, tA, hgA⟩ := update_total w.lib w.doA w.flags.zoneID w.flags.recordIDv4
        (resolvedToken w) (recordA w ipv4)
      simp only [hgA] at hmain
      cases eA with
      | some e =>
        refine ⟨_, hmain, Or.inr (Or.inr (Or.inl
          ⟨ipv4, t4, ipv6, t6, e, tA, hg4, hg6, hgA, rfl, rfl, ?_⟩))⟩
        simp [skeleton_append, skeleton]
      | none =>
        obtain ⟨eB, tB, hgB⟩ := update_total w.lib w.doAAAA w.flags.zoneID w.flags.recordIDv6
          (resolvedToken w) (recordAAAA w ipv6)
        simp only [hgB] at hmain
        cases eB with
        | some e =>
          refine ⟨_, hmain, Or.inr (Or.inr (Or.inr (Or.inl
            ⟨ipv4, t4, ipv6, t6, tA, e, tB, hg4, hg6, hgA, hgB, rfl, rfl, ?_⟩)))⟩
          simp [skeleton_append, skeleton]
        | none =>
          refine ⟨_, hmain, Or.inr (Or.inr (Or.inr (Or.inr
            ⟨ipv4, t4, ipv6, t6, tA, tB, hg4, hg6, hgA, hgB, rfl, rfl, ?_⟩)))⟩
          simp [skeleton_append, skeleton]

/-- With every call answered with a success, `main` calls the four operations and exits with
code 0. -/
theorem main_stops_at_first_failure_witness :
    ∃ r, main sampleWorld = some r ∧ r.exitCode = 0 ∧ r.calls.length = 4 := by
  obtain ⟨r, h, _⟩ := main_stops_at_first_failure sampleWorld (by decide) (by decide)
    (by decide) (by decide) (by decide)
  have h0 : (main sampleWorld).map (fun r => (r.exitCode, r.calls.length)) = some (0, 4) := by
    decide
  rw [h] at h0
  simp only [Option.map_some', Option.some.injEq, Prod.mk.injEq] at h0
  exact ⟨r, h, h0.1, h0.2⟩

end Myopsida
